import Mathlib

/-!
# gobrax-challenge: validation and update orchestration

A shallow embedding of the `entity` and `usecase` packages, of GetById of the
`repository` package and of the AddVehicle and Update handlers of `handler`.

* Go strings are Lean `String`s; `len(s)` is the UTF-8 byte length.
* `int` is `Int`, `uint` is `Nat`; no arithmetic is performed on either.
* A pointer that may be `nil` is an `Option`.
* `error` values are `Option GoError` (`none` is the `nil` error).
* The repository interfaces are records of state-passing functions over an
  arbitrary store state; every use case returns, next to its result, the list
  of repository calls it made, in order.
* `mail.ParseAddress` (standard library) is a parameter `parseOk` telling
  whether the call returns a `nil` error.
* A handler takes the outcomes of `strconv.Atoi` and of the JSON decoding as
  inputs and returns the status and error text it writes.
* `regexp.MustCompile(p).MatchString(s)` is embedded through a small regular
  expression type with a backtracking matcher; each pattern constant is
  transcribed into that type.
-/

namespace Gobrax

/-! ## Regular expressions (the fragment of RE2 syntax used by the patterns) -/

/-- Regular expressions over characters: the constructs occurring in the
patterns of `entity/driver.go` and `entity/vehicle.go`. -/
inductive Regex where
  | cls (p : Char → Bool)
  | seq (a b : Regex)
  | alt (a b : Regex)
  | opt (a : Regex)
  | rep (a : Regex) (lo hi : Nat)

/-- Apply `f` exactly `n` times in sequence, collecting every reachable rest. -/
def iter (f : List Char → List (List Char)) : Nat → List Char → List (List Char)
  | 0, s => [s]
  | n + 1, s => (f s).flatMap (iter f n)

/-- All rests of the input left after `f` matched between `lo` and `lo + extra`
times. -/
def iterRange (f : List Char → List (List Char)) (lo : Nat) :
    Nat → List Char → List (List Char)
  | 0, s => iter f lo s
  | k + 1, s => iter f (lo + (k + 1)) s ++ iterRange f lo k s

/-- Every way of matching a prefix of the input: `r.run s` lists the rests of
`s` that remain after some prefix matched `r`. -/
def Regex.run : Regex → List Char → List (List Char)
  | .cls _, [] => []
  | .cls p, c :: s => if p c then [s] else []
  | .seq a b, s => (a.run s).flatMap (fun t => b.run t)
  | .alt a b, s => a.run s ++ b.run s
  | .opt a, s => a.run s ++ [s]
  | .rep a lo hi, s => if lo ≤ hi then iterRange (fun t => a.run t) lo (hi - lo) s else []

/-- The regular expression matches the whole input. -/
def Regex.fullMatch (r : Regex) (s : List Char) : Bool :=
  (r.run s).any List.isEmpty

/-- A compiled pattern: a body with the `^` and `$` assertions found at its two
ends (without the `m` flag they mean begin and end of text). -/
structure Pattern where
  anchoredStart : Bool
  body : Regex
  anchoredEnd : Bool

/-- Method MatchString of a compiled regexp: does the string contain a match of the pattern? Only
patterns ending in `$` occur; a match is then a suffix of the text matching the
body, which must be the whole text when the pattern starts with `^`. -/
def Pattern.MatchString (p : Pattern) (s : String) : Bool :=
  match p.anchoredStart, p.anchoredEnd with
  | true, true => p.body.fullMatch s.data
  | false, true => s.data.tails.any p.body.fullMatch
  | true, false => !(p.body.run s.data).isEmpty
  | false, false => s.data.tails.any (fun t => !(p.body.run t).isEmpty)

/-- Class `\d`. -/
def digit : Regex := .cls (fun c => 48 ≤ c.toNat && c.toNat ≤ 57)

/-- Class `[A-Z]`. -/
def upper : Regex := .cls (fun c => 65 ≤ c.toNat && c.toNat ≤ 90)

/-- Class `[a-zA-Z0-9]`. -/
def alnum : Regex :=
  .cls (fun c => (97 ≤ c.toNat && c.toNat ≤ 122) || (65 ≤ c.toNat && c.toNat ≤ 90)
    || (48 ≤ c.toNat && c.toNat ≤ 57))

/-- Class `\w`, that is `[0-9A-Za-z_]`. -/
def word : Regex :=
  .cls (fun c => (48 ≤ c.toNat && c.toNat ≤ 57) || (65 ≤ c.toNat && c.toNat ≤ 90)
    || (97 ≤ c.toNat && c.toNat ≤ 122) || c.toNat = 95)

/-- Class `\s`, that is `[\t\n\f\r ]`. -/
def space : Regex :=
  .cls (fun c => c.toNat = 9 || c.toNat = 10 || c.toNat = 12 || c.toNat = 13 || c.toNat = 32)

/-- A literal character. -/
def lit (c : Char) : Regex := .cls (fun x => x.toNat = c.toNat)

/-- The constant regexPhone, `((\+|\(|0)?\d{1,3})?((\s|\)|\-))?(\d{10})$`. -/
def regexPhone : Pattern where
  anchoredStart := false
  body :=
    .seq (.opt (.seq (.opt (.alt (lit '+') (.alt (lit '(') (lit '0')))) (.rep digit 1 3)))
      (.seq (.opt (.alt space (.alt (lit ')') (lit '-'))))
        (.rep digit 10 10))
  anchoredEnd := true

/-- The constant regexLicense, `^[a-zA-Z0-9]{6,11}$`. -/
def regexLicense : Pattern where
  anchoredStart := true
  body := .rep alnum 6 11
  anchoredEnd := true

/-- The constant regexPlate, `^[A-Z]{3}-\w{4}$`. -/
def regexPlate : Pattern where
  anchoredStart := true
  body := .seq (.rep upper 3 3) (.seq (lit '-') (.rep word 4 4))
  anchoredEnd := true

/-! ## Entities -/

/-- The struct gorm.Model embedded in both entities; times are abstract stamps. -/
structure Model where
  ID : Nat := 0
  CreatedAt : Int := 0
  UpdatedAt : Int := 0
  DeletedAt : Option Int := none
deriving DecidableEq, Repr

/-- The struct entity.Vehicle. -/
structure Vehicle extends Model where
  Brand : String := ""
  VehicleModel : String := ""
  Year : Int := 0
  Plate : String := ""
  DriverID : Nat := 0
deriving DecidableEq, Repr

/-- The struct entity.Driver. -/
structure Driver extends Model where
  Name : String := ""
  LastName : String := ""
  Email : String := ""
  Phone : String := ""
  License : String := ""
  LicenseType : String := ""
  Vehicles : List Vehicle := []
deriving DecidableEq, Repr

/-- The struct entity.ErrorInvalidField. -/
structure ErrorInvalidField where
  Message : List String := []
deriving DecidableEq, Repr

/-- Method Error of ErrorInvalidField: `strings.Join(e.Message, ",")`. -/
def ErrorInvalidField.Error (e : ErrorInvalidField) : String :=
  ",".intercalate e.Message

/-- Go's `len` on a string: the number of bytes. -/
def len (s : String) : Nat := s.utf8ByteSize

/-! ## Errors -/

/-- The values of Go's `error` interface that the program can see: a pointer to
an ErrorInvalidField, the two sentinels of package usecase, gorm's
ErrRecordNotFound, and any other error (identified by its text). -/
inductive GoError where
  | invalidField (e : ErrorInvalidField)
  | driverNotFound
  | vehicleNotFound
  | recordNotFound
  | other (text : String)
deriving DecidableEq, Repr

/-- The sentinel `errors.New("driver not found")` of usecase/driver.go. -/
def ErrDriverNotFound : GoError := .driverNotFound

/-- The sentinel `errors.New("vehicle not found")` of usecase/vehicle.go. -/
def ErrVehicleNotFound : GoError := .vehicleNotFound

/-- The messages carried by an error result: those of the ErrorInvalidField it
points to, none for `nil` or for any other error. -/
def messagesOf : Option GoError → List String
  | some (.invalidField e) => e.Message
  | _ => []

/-! ## entity/driver.go -/

def LicenseTypeACC : String := "ACC"
def LicenseTypeA : String := "A"
def LicenseTypeA1 : String := "A1"
def LicenseTypeAB : String := "AB"
def LicenseTypeB : String := "B"
def LicenseTypeB1 : String := "B1"
def LicenseTypeC : String := "C"
def LicenseTypeC1 : String := "C1"
def LicenseTypeD : String := "D"
def LicenseTypeD1 : String := "D1"
def LicenseTypeBE : String := "BE"
def LicenseTypeCE : String := "CE"
def LicenseTypeC1E : String := "C1E"
def LicenseTypeDE : String := "DE"
def LicenseTypeD1E : String := "D1E"

/-- The standard library call `mail.ParseAddress(s)`, observed only through
whether the returned error is `nil` (`true`) or not. -/
abbrev MailParser := String → Bool

/-- Condition of the `if` in validateName. -/
def Driver.nameInvalid (d : Driver) : Bool :=
  d.Name = "" || len d.Name < 3

/-- Condition of the `if` in validateLastName. -/
def Driver.lastNameInvalid (d : Driver) : Bool :=
  d.LastName = "" || len d.LastName < 3

/-- Condition of the `if` in validateEmail: `errMail != nil`. -/
def Driver.emailInvalid (parseOk : MailParser) (d : Driver) : Bool :=
  !parseOk d.Email

/-- Condition of the `if` in validatePhone. -/
def Driver.phoneInvalid (d : Driver) : Bool :=
  !regexPhone.MatchString d.Phone

/-- Condition of the `if` in validateLicense. -/
def Driver.licenseInvalid (d : Driver) : Bool :=
  !regexLicense.MatchString d.License

/-- The `switch` of validateLicenseType falls through to the append: the
license type is none of the listed cases (in the order of the source). -/
def Driver.licenseTypeInvalid (d : Driver) : Bool :=
  !(decide (d.LicenseType ∈
    [LicenseTypeA, LicenseTypeB, LicenseTypeC, LicenseTypeD,
     LicenseTypeACC, LicenseTypeA1, LicenseTypeAB, LicenseTypeB1,
     LicenseTypeC1, LicenseTypeD1, LicenseTypeBE, LicenseTypeCE,
     LicenseTypeC1E, LicenseTypeDE, LicenseTypeD1E]))

/-- The statement `err.Message = append(err.Message, msg)`. -/
def ErrorInvalidField.append (err : ErrorInvalidField) (msg : String) : ErrorInvalidField :=
  { err with Message := err.Message ++ [msg] }

def Driver.validateName (d : Driver) (err : ErrorInvalidField) : ErrorInvalidField :=
  if d.nameInvalid then err.append "driver name is invalid" else err

def Driver.validateLastName (d : Driver) (err : ErrorInvalidField) : ErrorInvalidField :=
  if d.lastNameInvalid then err.append "driver last name is invalid" else err

def Driver.validateEmail (parseOk : MailParser) (d : Driver) (err : ErrorInvalidField) :
    ErrorInvalidField :=
  if d.emailInvalid parseOk then err.append "driver email is invalid" else err

def Driver.validatePhone (d : Driver) (err : ErrorInvalidField) : ErrorInvalidField :=
  if d.phoneInvalid then err.append "driver phone is invalid" else err

def Driver.validateLicense (d : Driver) (err : ErrorInvalidField) : ErrorInvalidField :=
  if d.licenseInvalid then err.append "driver license is invalid" else err

def Driver.validateLicenseType (d : Driver) (err : ErrorInvalidField) : ErrorInvalidField :=
  if d.licenseTypeInvalid then err.append "driver license type is invalid" else err

/-- Method Validate of Driver: the six checks run on one fresh aggregate, which
is returned only when it holds a message. -/
def Driver.Validate (parseOk : MailParser) (d : Driver) : Option GoError :=
  let err : ErrorInvalidField := { Message := [] }
  let err := d.validateName err
  let err := d.validateLastName err
  let err := d.validateEmail parseOk err
  let err := d.validatePhone err
  let err := d.validateLicense err
  let err := d.validateLicenseType err
  if err.Message.length > 0 then some (.invalidField err) else none

/-! ## entity/vehicle.go -/

/-- Condition of the `if` in validateBrand. -/
def Vehicle.brandInvalid (v : Vehicle) : Bool :=
  v.Brand = "" || len v.Brand < 3

/-- Condition of the `if` in validateVehicleModel. -/
def Vehicle.vehicleModelInvalid (v : Vehicle) : Bool :=
  v.VehicleModel = "" || len v.VehicleModel < 3

/-- Condition of the `if` in validateYear. -/
def Vehicle.yearInvalid (v : Vehicle) : Bool :=
  v.Year ≤ 1886

/-- Condition of the `if` in validatePlate. -/
def Vehicle.plateInvalid (v : Vehicle) : Bool :=
  !regexPlate.MatchString v.Plate

def Vehicle.validateBrand (v : Vehicle) (err : ErrorInvalidField) : ErrorInvalidField :=
  if v.brandInvalid then err.append "vehicle brand is invalid" else err

def Vehicle.validateVehicleModel (v : Vehicle) (err : ErrorInvalidField) : ErrorInvalidField :=
  if v.vehicleModelInvalid then err.append "vehicle model is invalid" else err

def Vehicle.validateYear (v : Vehicle) (err : ErrorInvalidField) : ErrorInvalidField :=
  if v.yearInvalid then err.append "vehicle year is invalid" else err

def Vehicle.validatePlate (v : Vehicle) (err : ErrorInvalidField) : ErrorInvalidField :=
  if v.plateInvalid then err.append "vehicle plate is invalid" else err

/-- Method Validate of Vehicle. -/
def Vehicle.Validate (v : Vehicle) : Option GoError :=
  let err : ErrorInvalidField := { Message := [] }
  let err := v.validateBrand err
  let err := v.validateVehicleModel err
  let err := v.validateYear err
  let err := v.validatePlate err
  if err.Message.length > 0 then some (.invalidField err) else none

/-! ## repository: the store interfaces -/

/-- The interface repository.DriverRepository over a store state `σ`: each
method reads the state and returns its Go results with the next state. -/
structure DriverRepository (σ : Type) where
  GetAll : σ → (Option (List Driver) × Option GoError) × σ
  GetById : Int → Bool → σ → (Option Driver × Option GoError) × σ
  Create : Driver → σ → Option GoError × σ
  AddVehicle : Driver → Vehicle → σ → Option GoError × σ
  Update : Driver → σ → Option GoError × σ
  Delete : Int → σ → Option GoError × σ

/-- The interface repository.VehicleRepository over a store state `σ`. -/
structure VehicleRepository (σ : Type) where
  GetAll : σ → (Option (List Vehicle) × Option GoError) × σ
  GetById : Int → σ → (Option Vehicle × Option GoError) × σ
  Update : Vehicle → σ → Option GoError × σ
  Delete : Int → σ → Option GoError × σ

/-- A call made on a DriverRepository, with its arguments. -/
inductive DriverCall where
  | GetAll
  | GetById (driverId : Int) (includeVehicle : Bool)
  | Create (driver : Driver)
  | AddVehicle (driver : Driver) (vehicle : Vehicle)
  | Update (driver : Driver)
  | Delete (driverId : Int)
deriving DecidableEq, Repr

/-- A call made on a VehicleRepository, with its arguments. -/
inductive VehicleCall where
  | GetAll
  | GetById (vehicleId : Int)
  | Update (vehicle : Vehicle)
  | Delete (vehicleId : Int)
deriving DecidableEq, Repr

/-- The call is the persist step of driver Update. -/
def DriverCall.isUpdate : DriverCall → Bool
  | .Update _ => true
  | _ => false

/-- The call is the associate step of AddVehicle. -/
def DriverCall.isAddVehicle : DriverCall → Bool
  | .AddVehicle _ _ => true
  | _ => false

/-- The call is the persist step of Create. -/
def DriverCall.isCreate : DriverCall → Bool
  | .Create _ => true
  | _ => false

/-- The call is the persist step of vehicle Update. -/
def VehicleCall.isUpdate : VehicleCall → Bool
  | .Update _ => true
  | _ => false

/-- What a use case leaves behind: its Go results, the repository calls it
made in order, and the store state after them. -/
structure Exec (σ κ α : Type) where
  ret : α
  calls : List κ
  store : σ

/-- How a Go function ends: it returns its results, or it panics (here always
a nil pointer dereference). -/
inductive Outcome (α : Type) where
  | returned (a : α)
  | panicked
deriving DecidableEq, Repr

/-- Outcome of gorm's `First(driver, driverId)` as read by GetById of
repository/driver.go: on a `nil` error the fresh record is filled; an error that
is ErrRecordNotFound becomes `nil, nil`; any other error is returned. -/
def driverRepository.GetById (driver : Driver) (err : Option GoError) :
    Option Driver × Option GoError :=
  match err with
  | some e => if e = .recordNotFound then (none, none) else (none, some e)
  | none => (some driver, none)

/-- Outcome of gorm's `First(vehicle, vehicleId)` as read by GetById of
repository/vehicle.go. -/
def vehicleRepository.GetById (vehicle : Vehicle) (err : Option GoError) :
    Option Vehicle × Option GoError :=
  match err with
  | some e => if e = .recordNotFound then (none, none) else (none, some e)
  | none => (some vehicle, none)

/-! ## usecase/driver.go -/

section driverUsecase
variable {σ : Type}

def driverUsecase.GetAll (dRepo : DriverRepository σ) (s : σ) :
    Exec σ DriverCall (Option (List Driver) × Option GoError) :=
  let r := dRepo.GetAll s
  match r.1.2 with
  | some err => ⟨(none, some err), [.GetAll], r.2⟩
  | none => ⟨(r.1.1, none), [.GetAll], r.2⟩

def driverUsecase.GetById (dRepo : DriverRepository σ) (driverId : Int)
    (includeVehicle : Bool) (s : σ) : Exec σ DriverCall (Option Driver × Option GoError) :=
  if driverId ≤ 0 then
    ⟨(none, some (.invalidField { Message := ["driver id is invalid"] })), [], s⟩
  else
    let r := dRepo.GetById driverId includeVehicle s
    match r.1.2 with
    | some err => ⟨(none, some err), [.GetById driverId includeVehicle], r.2⟩
    | none => ⟨(r.1.1, none), [.GetById driverId includeVehicle], r.2⟩

def driverUsecase.Create (parseOk : MailParser) (dRepo : DriverRepository σ)
    (driver : Option Driver) (s : σ) : Exec σ DriverCall (Option GoError) :=
  match driver with
  | none => ⟨some (.invalidField { Message := ["driver is invalid"] }), [], s⟩
  | some driver =>
    match driver.Validate parseOk with
    | some err => ⟨some err, [], s⟩
    | none =>
      let r := dRepo.Create driver s
      match r.1 with
      | some err => ⟨some err, [.Create driver], r.2⟩
      | none => ⟨none, [.Create driver], r.2⟩

def driverUsecase.AddVehicle (dRepo : DriverRepository σ) (driverId : Int)
    (vehicle : Option Vehicle) (s : σ) : Exec σ DriverCall (Option GoError) :=
  if driverId ≤ 0 then
    ⟨some (.invalidField { Message := ["driver id is invalid"] }), [], s⟩
  else
    match vehicle with
    | none => ⟨some (.invalidField { Message := ["vehicle is invalid"] }), [], s⟩
    | some vehicle =>
      match vehicle.Validate with
      | some err => ⟨some err, [], s⟩
      | none =>
        let r := dRepo.GetById driverId false s
        match r.1.2 with
        | some err => ⟨some err, [.GetById driverId false], r.2⟩
        | none =>
          match r.1.1 with
          | none => ⟨some ErrDriverNotFound, [.GetById driverId false], r.2⟩
          | some driver =>
            let r2 := dRepo.AddVehicle driver vehicle r.2
            match r2.1 with
            | some err =>
              ⟨some err, [.GetById driverId false, .AddVehicle driver vehicle], r2.2⟩
            | none => ⟨none, [.GetById driverId false, .AddVehicle driver vehicle], r2.2⟩

/-- Lines 114 to 131 of usecase/driver.go: the six conditional assignments made
by Update on the fetched record `driver` from the payload `updateDriver`. -/
def driverUsecase.merge (driver updateDriver : Driver) : Driver :=
  let driver :=
    if updateDriver.Name ≠ "" then { driver with Name := updateDriver.Name } else driver
  let driver :=
    if updateDriver.LastName ≠ "" then
      { driver with LastName := updateDriver.LastName }
    else driver
  let driver :=
    if updateDriver.Email ≠ "" then { driver with Email := updateDriver.Email } else driver
  let driver :=
    if updateDriver.Phone ≠ "" then { driver with Phone := updateDriver.Phone } else driver
  let driver :=
    if updateDriver.License ≠ "" then { driver with License := updateDriver.License } else driver
  let driver :=
    if updateDriver.LicenseType ≠ "" then
      { driver with LicenseType := updateDriver.LicenseType }
    else driver
  driver

/-- Update of usecase/driver.go. The payload pointer is dereferenced (line 114)
without a nil check, after the fetched record was found to exist. -/
def driverUsecase.Update (parseOk : MailParser) (dRepo : DriverRepository σ) (driverId : Int)
    (updateDriver : Option Driver) (s : σ) : Exec σ DriverCall (Outcome (Option GoError)) :=
  if driverId ≤ 0 then
    ⟨.returned (some (.invalidField { Message := ["driver id is invalid"] })), [], s⟩
  else
    let r := dRepo.GetById driverId false s
    match r.1.2 with
    | some err => ⟨.returned (some err), [.GetById driverId false], r.2⟩
    | none =>
      match r.1.1 with
      | none => ⟨.returned (some ErrDriverNotFound), [.GetById driverId false], r.2⟩
      | some driver =>
        match updateDriver with
        | none => ⟨.panicked, [.GetById driverId false], r.2⟩
        | some updateDriver =>
          let driver := driverUsecase.merge driver updateDriver
          match driver.Validate parseOk with
          | some err => ⟨.returned (some err), [.GetById driverId false], r.2⟩
          | none =>
            let r2 := dRepo.Update driver r.2
            match r2.1 with
            | some err =>
              ⟨.returned (some err), [.GetById driverId false, .Update driver], r2.2⟩
            | none => ⟨.returned none, [.GetById driverId false, .Update driver], r2.2⟩

def driverUsecase.Delete (dRepo : DriverRepository σ) (driverId : Int) (s : σ) :
    Exec σ DriverCall (Option GoError) :=
  if driverId ≤ 0 then
    ⟨some (.invalidField { Message := ["driver id is invalid"] }), [], s⟩
  else
    let r := dRepo.Delete driverId s
    match r.1 with
    | some err => ⟨some err, [.Delete driverId], r.2⟩
    | none => ⟨none, [.Delete driverId], r.2⟩

end driverUsecase

/-! ## usecase/vehicle.go -/

section vehicleUsecase
variable {σ : Type}

def vehicleUsecase.GetAll (vRepo : VehicleRepository σ) (s : σ) :
    Exec σ VehicleCall (Option (List Vehicle) × Option GoError) :=
  let r := vRepo.GetAll s
  match r.1.2 with
  | some err => ⟨(none, some err), [.GetAll], r.2⟩
  | none => ⟨(r.1.1, none), [.GetAll], r.2⟩

def vehicleUsecase.GetById (vRepo : VehicleRepository σ) (vehicleId : Int) (s : σ) :
    Exec σ VehicleCall (Option Vehicle × Option GoError) :=
  if vehicleId ≤ 0 then
    ⟨(none, some (.invalidField { Message := ["vehicle id is invalid"] })), [], s⟩
  else
    let r := vRepo.GetById vehicleId s
    match r.1.2 with
    | some err => ⟨(none, some err), [.GetById vehicleId], r.2⟩
    | none => ⟨(r.1.1, none), [.GetById vehicleId], r.2⟩

/-- Lines 64 to 75 of usecase/vehicle.go: the four conditional assignments made
by Update on the fetched record `vehicle` from the payload `updateVehicle`, in
the order brand, plate, model, year. -/
def vehicleUsecase.merge (vehicle updateVehicle : Vehicle) : Vehicle :=
  let vehicle :=
    if updateVehicle.Brand ≠ "" then { vehicle with Brand := updateVehicle.Brand } else vehicle
  let vehicle :=
    if updateVehicle.Plate ≠ "" then { vehicle with Plate := updateVehicle.Plate } else vehicle
  let vehicle :=
    if updateVehicle.VehicleModel ≠ "" then
      { vehicle with VehicleModel := updateVehicle.VehicleModel }
    else vehicle
  let vehicle :=
    if updateVehicle.Year ≠ 0 then { vehicle with Year := updateVehicle.Year } else vehicle
  vehicle

/-- Update of usecase/vehicle.go. The payload pointer is dereferenced (line 64)
without a nil check, after the fetched record was found to exist. -/
def vehicleUsecase.Update (vRepo : VehicleRepository σ) (vehicleId : Int)
    (updateVehicle : Option Vehicle) (s : σ) : Exec σ VehicleCall (Outcome (Option GoError)) :=
  if vehicleId ≤ 0 then
    ⟨.returned (some (.invalidField { Message := ["vehicle id is invalid"] })), [], s⟩
  else
    let r := vRepo.GetById vehicleId s
    match r.1.2 with
    | some err => ⟨.returned (some err), [.GetById vehicleId], r.2⟩
    | none =>
      match r.1.1 with
      | none => ⟨.returned (some ErrVehicleNotFound), [.GetById vehicleId], r.2⟩
      | some vehicle =>
        match updateVehicle with
        | none => ⟨.panicked, [.GetById vehicleId], r.2⟩
        | some updateVehicle =>
          let vehicle := vehicleUsecase.merge vehicle updateVehicle
          match vehicle.Validate with
          | some err => ⟨.returned (some err), [.GetById vehicleId], r.2⟩
          | none =>
            let r2 := vRepo.Update vehicle r.2
            match r2.1 with
            | some err => ⟨.returned (some err), [.GetById vehicleId, .Update vehicle], r2.2⟩
            | none => ⟨.returned none, [.GetById vehicleId, .Update vehicle], r2.2⟩

def vehicleUsecase.Delete (vRepo : VehicleRepository σ) (vehicleId : Int) (s : σ) :
    Exec σ VehicleCall (Option GoError) :=
  if vehicleId ≤ 0 then
    ⟨some (.invalidField { Message := ["vehicle id is invalid"] }), [], s⟩
  else
    let r := vRepo.Delete vehicleId s
    match r.1 with
    | some err => ⟨some err, [.Delete vehicleId], r.2⟩
    | none => ⟨none, [.Delete vehicleId], r.2⟩

end vehicleUsecase

/-! ## The fixed order of violations, as the specification words it -/

/-- The messages, among the given pairs of a check outcome (`true`: the check
fails) and its message, whose check fails, in the order of the list. -/
def failing (checks : List (Bool × String)) : List String :=
  (checks.filter (fun c => c.1)).map (fun c => c.2)

/-- The six driver messages in the fixed field order. -/
def driverMessages : List String :=
  ["driver name is invalid", "driver last name is invalid", "driver email is invalid",
   "driver phone is invalid", "driver license is invalid", "driver license type is invalid"]

/-- The four vehicle messages in the fixed field order. -/
def vehicleMessages : List String :=
  ["vehicle brand is invalid", "vehicle model is invalid", "vehicle year is invalid",
   "vehicle plate is invalid"]

/-- The six field checks of a driver in the fixed order name, last name, email,
phone, license, license type, each with its message. -/
def Driver.checks (parseOk : MailParser) (d : Driver) : List (Bool × String) :=
  [(d.nameInvalid, "driver name is invalid"),
   (d.lastNameInvalid, "driver last name is invalid"),
   (d.emailInvalid parseOk, "driver email is invalid"),
   (d.phoneInvalid, "driver phone is invalid"),
   (d.licenseInvalid, "driver license is invalid"),
   (d.licenseTypeInvalid, "driver license type is invalid")]

/-- The four field checks of a vehicle in the fixed order brand, model, year,
plate, each with its message. -/
def Vehicle.checks (v : Vehicle) : List (Bool × String) :=
  [(v.brandInvalid, "vehicle brand is invalid"),
   (v.vehicleModelInvalid, "vehicle model is invalid"),
   (v.yearInvalid, "vehicle year is invalid"),
   (v.plateInvalid, "vehicle plate is invalid")]

/-! ## Concrete stores and records used to exercise the statements -/

/-- An in-memory driver store: the state is the list of stored drivers. -/
def memDriverRepo : DriverRepository (List Driver) where
  GetAll := fun s => ((some s, none), s)
  GetById := fun driverId includeVehicle s =>
    match s.find? (fun d => (d.ID : Int) = driverId) with
    | some d => ((some (if includeVehicle then d else { d with Vehicles := [] }), none), s)
    | none => ((none, none), s)
  Create := fun d s => (none, s ++ [{ d with ID := s.length + 1 }])
  AddVehicle := fun d v s =>
    (none, s.map (fun x => if x.ID = d.ID then { x with Vehicles := x.Vehicles ++ [v] } else x))
  Update := fun d s => (none, s.map (fun x => if x.ID = d.ID then d else x))
  Delete := fun driverId s => (none, s.filter (fun d => (d.ID : Int) ≠ driverId))

/-- An in-memory vehicle store: the state is the list of stored vehicles. -/
def memVehicleRepo : VehicleRepository (List Vehicle) where
  GetAll := fun s => ((some s, none), s)
  GetById := fun vehicleId s =>
    match s.find? (fun v => (v.ID : Int) = vehicleId) with
    | some v => ((some v, none), s)
    | none => ((none, none), s)
  Update := fun v s => (none, s.map (fun x => if x.ID = v.ID then v else x))
  Delete := fun vehicleId s => (none, s.filter (fun v => (v.ID : Int) ≠ vehicleId))

/-- A stand-in for `mail.ParseAddress` on plain `local@domain` inputs: exactly
one `@`, with something on both sides. -/
def simpleParseOk : MailParser := fun s =>
  s.data.count '@' = 1 && s.data.head? ≠ some '@' && s.data.getLast? ≠ some '@'

/-- The valid driver of the tests of package entity. -/
def johnDoe : Driver :=
  { Name := "John", LastName := "Doe", Email := "john.doe@example.com",
    Phone := "1234567890", License := "ABC123", LicenseType := LicenseTypeA }

/-- The driver of the tests of package entity whose six fields are all invalid. -/
def allInvalidDriver : Driver :=
  { Name := "L", LastName := "D", Email := "john.doe.com",
    Phone := "123456789", License := "ABC", LicenseType := "X" }

/-- A stored driver with identifier 1. -/
def storedDriver : Driver :=
  { johnDoe with ID := 1 }

/-- The valid vehicle of the tests of package entity. -/
def camry : Vehicle :=
  { Brand := "Toyota", VehicleModel := "Camry", Year := 2022, Plate := "ABC-1234", DriverID := 1 }

/-- The vehicle of the tests of package entity whose brand is too short. -/
def shortBrandVehicle : Vehicle :=
  { Brand := "T", VehicleModel := "Camry", Year := 2022, Plate := "ABC-1234", DriverID := 1 }

/-- The payload of the update test that carries a name only. -/
def nameOnlyPatch : Driver :=
  { Name := "Lucas" }

/-- A payload whose merge into the stored driver is invalid (name too short). -/
def shortNamePatch : Driver :=
  { Name := "J" }

/-- A vehicle payload whose merge into the stored vehicle is invalid. -/
def shortBrandPatch : Vehicle :=
  { Brand := "T" }

/-- A stored vehicle with identifier 1. -/
def storedVehicle : Vehicle :=
  { camry with ID := 1 }

/-! ## Character forms named by the specification -/

/-- An uppercase letter, A to Z. -/
def isUpperLetter (c : Char) : Bool :=
  'A'.toNat ≤ c.toNat && c.toNat ≤ 'Z'.toNat

/-- A lowercase letter, a to z. -/
def isLowerLetter (c : Char) : Bool :=
  'a'.toNat ≤ c.toNat && c.toNat ≤ 'z'.toNat

/-- A decimal digit, 0 to 9. -/
def isDigitChar (c : Char) : Bool :=
  '0'.toNat ≤ c.toNat && c.toNat ≤ '9'.toNat

/-- An alphanumeric character: a letter or a digit. -/
def isAlphanumeric (c : Char) : Bool :=
  isUpperLetter c || isLowerLetter c || isDigitChar c

/-- A word character: a letter, a digit or the underscore. -/
def isWordChar (c : Char) : Bool :=
  isAlphanumeric c || c = '_'

/-- The form `AAA-XXXX`: exactly three uppercase letters, a hyphen, then exactly
four characters of the class `last`, and nothing else. -/
def plateForm (last : Char → Bool) (plate : String) : Bool :=
  match plate.data with
  | [a, b, c, h, w, x, y, z] =>
    isUpperLetter a && isUpperLetter b && isUpperLetter c && h = '-'
      && last w && last x && last y && last z
  | _ => false

/-! ## More stores and records used to exercise the statements -/

/-- The error returned by the failing mocks of the tests. -/
def someError : GoError := .other "some error occurred"

/-- A driver store whose every method fails with `someError`. -/
def failingDriverRepo : DriverRepository Unit where
  GetAll := fun s => ((none, some someError), s)
  GetById := fun _ _ s => ((none, some someError), s)
  Create := fun _ s => (some someError, s)
  AddVehicle := fun _ _ s => (some someError, s)
  Update := fun _ s => (some someError, s)
  Delete := fun _ s => (some someError, s)

/-- A vehicle store whose every method fails with `someError`. -/
def failingVehicleRepo : VehicleRepository Unit where
  GetAll := fun s => ((none, some someError), s)
  GetById := fun _ s => ((none, some someError), s)
  Update := fun _ s => (some someError, s)
  Delete := fun _ s => (some someError, s)

/-- The in-memory driver store with reads that work and writes that fail. -/
def failingWriteDriverRepo : DriverRepository (List Driver) where
  GetAll := memDriverRepo.GetAll
  GetById := memDriverRepo.GetById
  Create := fun _ s => (some someError, s)
  AddVehicle := fun _ _ s => (some someError, s)
  Update := fun _ s => (some someError, s)
  Delete := fun _ s => (some someError, s)

/-- A vehicle payload overwriting the year only. -/
def yearOnlyPatch : Vehicle :=
  { Year := 2023 }

/-- A driver whose name has two characters and four bytes. -/
def twoCharNameDriver : Driver :=
  { johnDoe with Name := "éé" }

/-- A driver whose last name has two characters and four bytes. -/
def twoCharLastNameDriver : Driver :=
  { johnDoe with LastName := "éé" }

/-- A driver whose name is too short and whose other fields are valid. -/
def shortNameDriver : Driver :=
  { johnDoe with Name := "L" }

/-- A vehicle whose plate ends in four word characters, one an underscore. -/
def underscorePlateVehicle : Vehicle :=
  { camry with Plate := "ABC-12_4" }

/-- A vehicle whose brand has two characters and four bytes, and whose other
fields are valid. -/
def twoCharBrandVehicle : Vehicle :=
  { camry with Brand := "éé" }

/-! ## handler/driver.go -/

/-- The struct driverRequest: the decoded JSON body of a driver request. -/
structure driverRequest where
  Name : String := ""
  LastName : String := ""
  Email : String := ""
  Phone : String := ""
  License : String := ""
  LicenseType : String := ""
deriving DecidableEq, Repr

/-- The struct vehicleRequest of handler/vehicle.go: the decoded JSON body of a
vehicle request. -/
structure vehicleRequest where
  Plate : String := ""
  Brand : String := ""
  VehicleModel : String := ""
  Year : Int := 0
deriving DecidableEq, Repr

/-- The methods of the interface usecase.DriverUsecase that the two embedded
handlers call. Update may panic, so it yields an Outcome. -/
structure DriverUsecase where
  AddVehicle : Int → Option Vehicle → Option GoError
  Update : Int → Option Driver → Outcome (Option GoError)

/-- What a handler writes: the status given to WriteHeader and, on an error
path, the text that errorHandler encodes under the key "error". -/
structure Response where
  status : Nat
  error : Option String
deriving DecidableEq, Repr

def StatusOK : Nat := 200
def StatusCreated : Nat := 201
def StatusBadRequest : Nat := 400
def StatusNotFound : Nat := 404
def StatusInternalServerError : Nat := 500

/-- Method Error of an error value. -/
def GoError.Error : GoError → String
  | .invalidField e => e.Error
  | .driverNotFound => "driver not found"
  | .vehicleNotFound => "vehicle not found"
  | .recordNotFound => "record not found"
  | .other text => text

/-- The test `reflect.TypeOf(err).String() == "*entity.ErrorInvalidField"`. -/
def isErrorInvalidField : GoError → Bool
  | .invalidField _ => true
  | _ => false

/-- The call `errors.Is(err, target)`; no error of the program wraps another, so
it compares the two values. -/
def errorsIs (err target : GoError) : Bool :=
  decide (err = target)

/-- The function errorHandler of handler/error.go. -/
def errorHandler (status : Nat) (err : String) : Response :=
  { status := status, error := some err }

/-- AddVehicle of handler/driver.go. `pathId` is the result of `strconv.Atoi` on
the path value (`none`: it failed), `body` the result of decoding the request
body. -/
def DriverHandler.AddVehicle (uc : DriverUsecase) (pathId : Option Int)
    (body : Except GoError vehicleRequest) : Response :=
  match pathId with
  | none => errorHandler StatusBadRequest "driverId must be a number"
  | some driverId =>
    match body with
    | .error err => errorHandler StatusInternalServerError err.Error
    | .ok vehicleReq =>
      let vehicle : Vehicle :=
        { Plate := vehicleReq.Plate, Brand := vehicleReq.Brand,
          VehicleModel := vehicleReq.VehicleModel, Year := vehicleReq.Year }
      match uc.AddVehicle driverId (some vehicle) with
      | some err =>
        if isErrorInvalidField err then errorHandler StatusBadRequest err.Error
        else errorHandler StatusInternalServerError err.Error
      | none => { status := StatusCreated, error := none }

/-- Update of handler/driver.go, with the same reading of `pathId` and `body`. -/
def DriverHandler.Update (uc : DriverUsecase) (pathId : Option Int)
    (body : Except GoError driverRequest) : Outcome Response :=
  match pathId with
  | none => .returned (errorHandler StatusBadRequest "driverId must be a number")
  | some driverId =>
    match body with
    | .error err => .returned (errorHandler StatusInternalServerError err.Error)
    | .ok driverReq =>
      let driver : Driver :=
        { Name := driverReq.Name, LastName := driverReq.LastName, Email := driverReq.Email,
          Phone := driverReq.Phone, License := driverReq.License,
          LicenseType := driverReq.LicenseType }
      match uc.Update driverId (some driver) with
      | .panicked => .panicked
      | .returned (some err) =>
        if isErrorInvalidField err then .returned (errorHandler StatusBadRequest err.Error)
        else if errorsIs err ErrDriverNotFound then
          .returned (errorHandler StatusNotFound err.Error)
        else .returned (errorHandler StatusInternalServerError err.Error)
      | .returned none => .returned { status := StatusOK, error := none }

/-- The driver use cases of package usecase over a store in a given state, seen
through the interface the handlers use. -/
def driverUsecaseOn {σ : Type} (parseOk : MailParser) (dRepo : DriverRepository σ) (s : σ) :
    DriverUsecase where
  AddVehicle := fun driverId vehicle => (driverUsecase.AddVehicle dRepo driverId vehicle s).ret
  Update := fun driverId driver => (driverUsecase.Update parseOk dRepo driverId driver s).ret

/-! ## Phone, license and license type forms named by the specification -/

/-- The sign that may open the phone prefix: '+', '(' or '0'. -/
def isPhoneSign (c : Char) : Bool :=
  c = '+' || c = '(' || c = '0'

/-- A whitespace character: tab, line feed, form feed, carriage return, space. -/
def isWhitespace (c : Char) : Bool :=
  c = '\t' || c = '\n' || c = '\x0c' || c = '\r' || c = ' '

/-- The single separator that may precede the ten digits: whitespace, ')' or
'-'. -/
def isPhoneSeparator (c : Char) : Bool :=
  isWhitespace c || c = ')' || c = '-'

/-- Exactly ten digits. -/
def isTenDigits (s : List Char) : Bool :=
  s.length = 10 && s.all isDigitChar

/-- An optional single separator, then exactly ten digits. -/
def isSeparatorThenNumber (s : List Char) : Bool :=
  isTenDigits s ||
    match s with
    | c :: r => isPhoneSeparator c && isTenDigits r
    | [] => false

/-- One to three digits, then an optional separator and the ten digits. -/
def isDigitsThenNumber (s : List Char) : Bool :=
  [1, 2, 3].any fun n =>
    (s.take n).length = n && (s.take n).all isDigitChar && isSeparatorThenNumber (s.drop n)

/-- The whole string is ten digits optionally preceded by a prefix (an optional
sign followed by one to three digits) and then by an optional single
separator. -/
def phoneFormList (s : List Char) : Bool :=
  isSeparatorThenNumber s || isDigitsThenNumber s ||
    match s with
    | c :: r => isPhoneSign c && isDigitsThenNumber r
    | [] => false

/-- The phone form of the specification, on a string. -/
def phoneForm (phone : String) : Bool :=
  phoneFormList phone.data

/-- The string ends with ten consecutive ASCII digits. -/
def endsWithTenDigits (s : String) : Bool :=
  10 ≤ s.data.length && (s.data.drop (s.data.length - 10)).all isDigitChar

/-- Between 6 and 11 characters, all of them ASCII letters or digits. -/
def licenseForm (license : String) : Bool :=
  6 ≤ license.length && license.length ≤ 11 && license.data.all isAlphanumeric

/-- The 15 license type codes in the order of the specification. -/
def licenseTypeCodes : List String :=
  ["ACC", "A", "A1", "AB", "B", "B1", "C", "C1", "D", "D1", "BE", "CE", "C1E", "DE", "D1E"]

/-- A driver whose phone is ten digits after three letters. -/
def lettersBeforePhoneDriver : Driver :=
  { johnDoe with Phone := "abc1234567890" }

/-- A driver whose phone has nine digits. -/
def nineDigitPhoneDriver : Driver :=
  { johnDoe with Phone := "123456789" }

/-- The driver payload sent by the handler tests. -/
def johnDoeRequest : driverRequest :=
  { Name := "John", LastName := "Doe", Email := "john.doe@example.com", Phone := "1234567890",
    License := "ABC123", LicenseType := "A" }

/-- The vehicle payload sent by the handler tests. -/
def camryRequest : vehicleRequest :=
  { Plate := "ABC-1234", Brand := "Toyota", VehicleModel := "Camry", Year := 2022 }

/-- The list `after` is the list `before` with the message `m` removed, the
other messages kept in order, and is exactly one message shorter. -/
def oneFewer (m : String) (before after : List String) : Prop :=
  after = before.erase m ∧ after.length + 1 = before.length

/-- A driver payload that also carries another identifier and a vehicle. -/
def foreignDriverPatch : Driver :=
  { Name := "Lucas", ID := 7, Vehicles := [camry] }

/-- A vehicle payload that also carries another identifier and another owner. -/
def foreignVehiclePatch : Vehicle :=
  { Year := 2023, ID := 7, DriverID := 9 }

/-! ## Validate as a filter of the fixed list -/

/-- Driver.Validate returns `nil` when no check fails, and otherwise an
ErrorInvalidField holding the messages of the failing checks in order. -/
theorem driver_Validate_eq (parseOk : MailParser) (d : Driver) :
    d.Validate parseOk =
      if failing (d.checks parseOk) = [] then none
      else some (.invalidField { Message := failing (d.checks parseOk) }) := by
  unfold Driver.Validate Driver.validateName Driver.validateLastName Driver.validateEmail
    Driver.validatePhone Driver.validateLicense Driver.validateLicenseType Driver.checks failing
  cases d.nameInvalid <;> cases d.lastNameInvalid <;> cases d.emailInvalid parseOk <;>
    cases d.phoneInvalid <;> cases d.licenseInvalid <;> cases d.licenseTypeInvalid <;>
    simp [ErrorInvalidField.append]

/-- Vehicle.Validate returns `nil` when no check fails, and otherwise an
ErrorInvalidField holding the messages of the failing checks in order. -/
theorem vehicle_Validate_eq (v : Vehicle) :
    v.Validate =
      if failing v.checks = [] then none
      else some (.invalidField { Message := failing v.checks }) := by
  unfold Vehicle.Validate Vehicle.validateBrand Vehicle.validateVehicleModel
    Vehicle.validateYear Vehicle.validatePlate Vehicle.checks failing
  cases v.brandInvalid <;> cases v.vehicleModelInvalid <;> cases v.yearInvalid <;>
    cases v.plateInvalid <;> simp [ErrorInvalidField.append]

theorem driver_messagesOf_Validate (parseOk : MailParser) (d : Driver) :
    messagesOf (d.Validate parseOk) = failing (d.checks parseOk) := by
  rw [driver_Validate_eq]
  by_cases h : failing (d.checks parseOk) = [] <;> simp [h, messagesOf]

theorem vehicle_messagesOf_Validate (v : Vehicle) :
    messagesOf v.Validate = failing v.checks := by
  rw [vehicle_Validate_eq]
  by_cases h : failing v.checks = [] <;> simp [h, messagesOf]

/-- The failing messages form a sublist of all the messages of the checks. -/
theorem failing_sublist (checks : List (Bool × String)) :
    (failing checks).Sublist (checks.map (fun c => c.2)) :=
  (List.filter_sublist checks).map _

/-- No check fails exactly when no message is reported. -/
theorem failing_eq_nil (checks : List (Bool × String)) :
    failing checks = [] ↔ ∀ c ∈ checks, c.1 = false := by
  simp [failing, List.filter_eq_nil_iff]

/-! ## Stepping lemmas for the use cases -/

section steps
variable {σ : Type}

theorem driverRepository_recordNotFound (driver : Driver) :
    driverRepository.GetById driver (some .recordNotFound) = (none, none) := by
  simp [driverRepository.GetById]

theorem vehicleRepository_recordNotFound (vehicle : Vehicle) :
    vehicleRepository.GetById vehicle (some .recordNotFound) = (none, none) := by
  simp [vehicleRepository.GetById]

/-- Driver Update after a successful fetch of `c`, with a present payload whose
merge is valid: the merged record goes to the store. -/
theorem driverUpdate_valid (parseOk : MailParser) (dRepo : DriverRepository σ)
    (s : σ) (driverId : Int) (c p : Driver) (hid : 0 < driverId)
    (hget : (dRepo.GetById driverId false s).1 = (some c, none))
    (hvalid : (driverUsecase.merge c p).Validate parseOk = none) :
    (driverUsecase.Update parseOk dRepo driverId (some p) s).calls
        = [.GetById driverId false, .Update (driverUsecase.merge c p)]
      ∧ (driverUsecase.Update parseOk dRepo driverId (some p) s).ret
        = .returned (dRepo.Update (driverUsecase.merge c p)
            (dRepo.GetById driverId false s).2).1 := by
  have hn : ¬ driverId ≤ 0 := not_le.mpr hid
  simp only [driverUsecase.Update, hn, if_false, hget, hvalid]
  cases h : (dRepo.Update (driverUsecase.merge c p) (dRepo.GetById driverId false s).2).1 <;>
    simp

/-- Driver Update after a successful fetch of `c`, with a present payload whose
merge is invalid: the aggregate is returned and only the fetch was made. -/
theorem driverUpdate_invalid (parseOk : MailParser) (dRepo : DriverRepository σ)
    (s : σ) (driverId : Int) (c p : Driver) (e : GoError) (hid : 0 < driverId)
    (hget : (dRepo.GetById driverId false s).1 = (some c, none))
    (hinvalid : (driverUsecase.merge c p).Validate parseOk = some e) :
    (driverUsecase.Update parseOk dRepo driverId (some p) s).calls = [.GetById driverId false]
      ∧ (driverUsecase.Update parseOk dRepo driverId (some p) s).ret = .returned (some e) := by
  have hn : ¬ driverId ≤ 0 := not_le.mpr hid
  simp only [driverUsecase.Update, hn, if_false, hget, hinvalid, and_self]

/-- Vehicle Update after a successful fetch, valid merge. -/
theorem vehicleUpdate_valid (vRepo : VehicleRepository σ)
    (s : σ) (vehicleId : Int) (c p : Vehicle) (hid : 0 < vehicleId)
    (hget : (vRepo.GetById vehicleId s).1 = (some c, none))
    (hvalid : (vehicleUsecase.merge c p).Validate = none) :
    (vehicleUsecase.Update vRepo vehicleId (some p) s).calls
        = [.GetById vehicleId, .Update (vehicleUsecase.merge c p)]
      ∧ (vehicleUsecase.Update vRepo vehicleId (some p) s).ret
        = .returned (vRepo.Update (vehicleUsecase.merge c p) (vRepo.GetById vehicleId s).2).1 := by
  have hn : ¬ vehicleId ≤ 0 := not_le.mpr hid
  simp only [vehicleUsecase.Update, hn, if_false, hget, hvalid]
  cases h : (vRepo.Update (vehicleUsecase.merge c p) (vRepo.GetById vehicleId s).2).1 <;>
    simp

/-- Vehicle Update after a successful fetch, invalid merge. -/
theorem vehicleUpdate_invalid (vRepo : VehicleRepository σ)
    (s : σ) (vehicleId : Int) (c p : Vehicle) (e : GoError) (hid : 0 < vehicleId)
    (hget : (vRepo.GetById vehicleId s).1 = (some c, none))
    (hinvalid : (vehicleUsecase.merge c p).Validate = some e) :
    (vehicleUsecase.Update vRepo vehicleId (some p) s).calls = [.GetById vehicleId]
      ∧ (vehicleUsecase.Update vRepo vehicleId (some p) s).ret = .returned (some e) := by
  have hn : ¬ vehicleId ≤ 0 := not_le.mpr hid
  simp only [vehicleUsecase.Update, hn, if_false, hget, hinvalid, and_self]

/-- The six merged fields of a driver, one by one. -/
theorem driverMerge_fields (c p : Driver) :
    (driverUsecase.merge c p).Name = (if p.Name = "" then c.Name else p.Name)
      ∧ (driverUsecase.merge c p).LastName = (if p.LastName = "" then c.LastName else p.LastName)
      ∧ (driverUsecase.merge c p).Email = (if p.Email = "" then c.Email else p.Email)
      ∧ (driverUsecase.merge c p).Phone = (if p.Phone = "" then c.Phone else p.Phone)
      ∧ (driverUsecase.merge c p).License = (if p.License = "" then c.License else p.License)
      ∧ (driverUsecase.merge c p).LicenseType
          = (if p.LicenseType = "" then c.LicenseType else p.LicenseType) := by
  unfold driverUsecase.merge
  refine ⟨?_, ?_, ?_, ?_, ?_, ?_⟩ <;>
    by_cases h1 : p.Name = "" <;> by_cases h2 : p.LastName = "" <;>
    by_cases h3 : p.Email = "" <;> by_cases h4 : p.Phone = "" <;>
    by_cases h5 : p.License = "" <;> by_cases h6 : p.LicenseType = "" <;>
    simp [h1, h2, h3, h4, h5, h6]

end steps

/-! ## Lemmas on the matcher, the patterns and string lengths -/

theorem fullMatch_iff (r : Regex) (s : List Char) :
    r.fullMatch s = true ↔ [] ∈ r.run s := by
  unfold Regex.fullMatch
  rw [List.any_eq_true]
  constructor
  · rintro ⟨t, ht, he⟩
    rw [List.isEmpty_iff] at he
    exact he ▸ ht
  · intro h
    exact ⟨[], h, rfl⟩

theorem mem_run_cls (p : Char → Bool) (s t : List Char) :
    t ∈ (Regex.cls p).run s ↔ ∃ c, s = c :: t ∧ p c = true := by
  cases s with
  | nil => simp [Regex.run]
  | cons c s =>
    by_cases h : p c = true
    · simp only [Regex.run, h, if_true, List.mem_singleton, List.cons.injEq]
      constructor
      · intro ht
        exact ⟨c, ⟨rfl, ht.symm⟩, h⟩
      · rintro ⟨c', ⟨hc, hs⟩, -⟩
        exact hs.symm
    · simp only [Regex.run, h, Bool.false_eq_true, if_false, List.not_mem_nil, List.cons.injEq,
        false_iff, not_exists, not_and]
      rintro c' ⟨hc, -⟩ hp
      exact h (hc ▸ hp)

theorem mem_iter_cls (p : Char → Bool) :
    ∀ (n : Nat) (s t : List Char),
      t ∈ iter (fun u => (Regex.cls p).run u) n s ↔
        ∃ pre, s = pre ++ t ∧ pre.length = n ∧ ∀ c ∈ pre, p c = true := by
  intro n
  induction n with
  | zero =>
    intro s t
    simp only [iter, List.mem_singleton, List.length_eq_zero]
    constructor
    · intro h
      exact ⟨[], by simp [h], rfl, by simp⟩
    · rintro ⟨pre, hs, hp, -⟩
      subst hp
      simpa using hs.symm
  | succ n ih =>
    intro s t
    simp only [iter, List.mem_flatMap, mem_run_cls, ih]
    constructor
    · rintro ⟨u, ⟨c, hs, hc⟩, pre, hu, hlen, hall⟩
      refine ⟨c :: pre, by simp [hs, hu], by simp [hlen], ?_⟩
      intro x hx
      rcases List.mem_cons.mp hx with h | h
      · exact h ▸ hc
      · exact hall x h
    · rintro ⟨pre, hs, hlen, hall⟩
      cases pre with
      | nil => simp at hlen
      | cons c pre =>
        refine ⟨pre ++ t, ⟨c, by simpa using hs, hall c (List.mem_cons_self _ _)⟩, pre, rfl,
          by simpa using hlen, ?_⟩
        intro x hx
        exact hall x (List.mem_cons_of_mem _ hx)

theorem mem_iterRange (f : List Char → List (List Char)) (lo : Nat) :
    ∀ (k : Nat) (s t : List Char),
      t ∈ iterRange f lo k s ↔ ∃ n, lo ≤ n ∧ n ≤ lo + k ∧ t ∈ iter f n s := by
  intro k
  induction k with
  | zero =>
    intro s t
    simp only [iterRange, Nat.add_zero]
    constructor
    · intro h
      exact ⟨lo, le_refl _, le_refl _, h⟩
    · rintro ⟨n, h1, h2, h⟩
      have : n = lo := le_antisymm h2 h1
      exact this ▸ h
  | succ k ih =>
    intro s t
    simp only [iterRange, List.mem_append, ih]
    constructor
    · rintro (h | ⟨n, h1, h2, h⟩)
      · exact ⟨lo + (k + 1), by omega, le_refl _, h⟩
      · exact ⟨n, h1, by omega, h⟩
    · rintro ⟨n, h1, h2, h⟩
      by_cases hn : n = lo + (k + 1)
      · exact Or.inl (hn ▸ h)
      · exact Or.inr ⟨n, h1, by omega, h⟩

/-- A bounded repetition of a character class matches the prefixes made of
between `lo` and `hi` characters of the class. -/
theorem mem_run_rep_cls (p : Char → Bool) (lo hi : Nat) (s t : List Char) :
    t ∈ (Regex.rep (.cls p) lo hi).run s ↔
      ∃ pre, s = pre ++ t ∧ lo ≤ pre.length ∧ pre.length ≤ hi
        ∧ ∀ c ∈ pre, p c = true := by
  simp only [Regex.run]
  by_cases h : lo ≤ hi
  · simp only [h, if_true, mem_iterRange, mem_iter_cls]
    constructor
    · rintro ⟨n, h1, h2, pre, hs, hlen, hall⟩
      exact ⟨pre, hs, by omega, by omega, hall⟩
    · rintro ⟨pre, hs, h1, h2, hall⟩
      exact ⟨pre.length, h1, by omega, pre, hs, rfl, hall⟩
  · simp only [h, if_false, List.not_mem_nil, false_iff, not_exists, not_and]
    intro pre _ h1 h2
    omega

theorem char_eq_of_toNat_eq {a b : Char} (h : a.toNat = b.toNat) : a = b := by
  rw [← Char.ofNat_toNat a, ← Char.ofNat_toNat b, h]

theorem upper_eq_cls : upper = .cls isUpperLetter := rfl

theorem lit_eq_cls (c : Char) : lit c = .cls (fun x => decide (x = c)) := by
  unfold lit
  congr 1
  funext x
  by_cases h : x = c
  · simp [h]
  · have : x.toNat ≠ c.toNat := fun e => h (char_eq_of_toNat_eq e)
    simp [h, this]

theorem word_eq_cls : word = .cls isWordChar := by
  unfold word
  congr 1
  funext c
  have h95 : decide (c = '_') = decide (c.toNat = 95) := by
    by_cases h : c = '_'
    · subst h
      rfl
    · have : c.toNat ≠ 95 := fun e => h (char_eq_of_toNat_eq (e.trans rfl))
      simp [h, this]
  have e1 : 'A'.toNat = 65 := rfl
  have e2 : 'Z'.toNat = 90 := rfl
  have e3 : 'a'.toNat = 97 := rfl
  have e4 : 'z'.toNat = 122 := rfl
  have e5 : '0'.toNat = 48 := rfl
  have e6 : '9'.toNat = 57 := rfl
  simp only [isWordChar, isAlphanumeric, isUpperLetter, isLowerLetter, isDigitChar, h95,
    e1, e2, e3, e4, e5, e6]
  cases decide (48 ≤ c.toNat) <;> cases decide (c.toNat ≤ 57) <;>
    cases decide (65 ≤ c.toNat) <;> cases decide (c.toNat ≤ 90) <;>
    cases decide (97 ≤ c.toNat) <;> cases decide (c.toNat ≤ 122) <;>
    cases decide (c.toNat = 95) <;> rfl

/-- The pattern regexPlate matches exactly the plates of the form three
uppercase letters, hyphen, four word characters. -/
theorem regexPlate_MatchString (plate : String) :
    regexPlate.MatchString plate = plateForm isWordChar plate := by
  rw [Bool.eq_iff_iff]
  show regexPlate.body.fullMatch plate.data = true ↔ _
  rw [fullMatch_iff]
  simp only [regexPlate, upper_eq_cls, word_eq_cls, lit_eq_cls, Regex.run.eq_3,
    List.mem_flatMap, mem_run_rep_cls, mem_run_cls, decide_eq_true_eq]
  constructor
  · rintro ⟨t1, ⟨pre1, hs, h1, h2, hall1⟩, t2, ⟨h, ht1, hh⟩, pre2, ht2, h3, h4, hall2⟩
    rcases pre1 with _ | ⟨a, _ | ⟨b, _ | ⟨c, _ | ⟨_, _⟩⟩⟩⟩ <;>
      simp only [List.length_nil, List.length_cons] at h1 h2 <;> try omega
    rcases pre2 with _ | ⟨w, _ | ⟨x, _ | ⟨y, _ | ⟨z, _ | ⟨_, _⟩⟩⟩⟩⟩ <;>
      simp only [List.length_nil, List.length_cons] at h3 h4 <;> try omega
    subst ht2 ht1 hh
    simp only [plateForm, hs, List.cons_append, List.nil_append, List.append_nil]
    simp [hall1 a, hall1 b, hall1 c, hall2 w, hall2 x, hall2 y, hall2 z]
  · intro hp
    unfold plateForm at hp
    split at hp
    · rename_i a b c h w x y z hs
      simp only [Bool.and_eq_true, decide_eq_true_eq] at hp
      obtain ⟨⟨⟨⟨⟨⟨⟨ha, hb⟩, hc⟩, hh⟩, hw⟩, hx⟩, hy⟩, hz⟩ := hp
      refine ⟨h :: [w, x, y, z], ⟨[a, b, c], by simp [hs], by simp, by simp, ?_⟩,
        [w, x, y, z], ⟨h, rfl, hh⟩, [w, x, y, z], by simp, by simp, by simp, ?_⟩
      · intro q hq
        simp only [List.mem_cons, List.mem_singleton, List.not_mem_nil, or_false] at hq
        rcases hq with r | r | r <;> rw [r] <;> assumption
      · intro q hq
        simp only [List.mem_cons, List.mem_singleton, List.not_mem_nil, or_false] at hq
        rcases hq with r | r | r | r <;> rw [r] <;> assumption
    · exact absurd hp (by simp)

theorem length_le_len (s : String) : s.length ≤ len s := by
  unfold len
  rcases s with ⟨cs⟩
  simp only [String.length, String.utf8ByteSize_mk]
  induction cs with
  | nil => simp
  | cons c cs ih =>
    have := Char.utf8Size_pos c
    simp only [List.length_cons, String.utf8Len_cons]
    omega

theorem mem_failing (m : String) (checks : List (Bool × String)) :
    m ∈ failing checks ↔ (true, m) ∈ checks := by
  simp [failing]

theorem utf8Size_of_ascii (c : Char) (h : c.toNat < 128) : c.utf8Size = 1 := by
  have hv : c.val ≤ UInt32.ofNatCore 0x7F (by decide) := by
    show c.val.toNat ≤ 127
    exact Nat.le_of_lt_succ h
  simp only [Char.utf8Size, hv, if_true]

theorem len_of_ascii (s : String) (h : ∀ c ∈ s.data, c.toNat < 128) : len s = s.length := by
  unfold len
  rcases s with ⟨cs⟩
  simp only [String.length, String.utf8ByteSize_mk]
  induction cs with
  | nil => simp
  | cons c cs ih =>
    have h1 := utf8Size_of_ascii c (h c (List.mem_cons_self _ _))
    have h2 := ih (fun x hx => h x (List.mem_cons_of_mem _ hx))
    simp only [List.length_cons, String.utf8Len_cons, h1, h2]

/-! ## Claims about the use cases -/

section claims
variable {σ τ : Type}

/-- C1: driver Update merge rule. For an identifier above zero, a record `c`
returned by the store and a present payload `p` whose merge is valid, the store
receives exactly one Update, and the record `m` handed to it has, for each of
Name, LastName, Email, Phone, License and LicenseType, the value of `p` when it
is non-empty and the value of `c` otherwise. In particular a payload carrying
only a name overwrites the name and leaves the five other fields as stored. -/
theorem C1_driver_update_merge_rule (parseOk : MailParser) (dRepo : DriverRepository σ)
    (s : σ) (driverId : Int) (c p : Driver) (hid : 0 < driverId)
    (hget : (dRepo.GetById driverId false s).1 = (some c, none))
    (hvalid : (driverUsecase.merge c p).Validate parseOk = none) :
    ∃ m : Driver,
      (driverUsecase.Update parseOk dRepo driverId (some p) s).calls
          = [.GetById driverId false, .Update m]
        ∧ m.Name = (if p.Name = "" then c.Name else p.Name)
        ∧ m.LastName = (if p.LastName = "" then c.LastName else p.LastName)
        ∧ m.Email = (if p.Email = "" then c.Email else p.Email)
        ∧ m.Phone = (if p.Phone = "" then c.Phone else p.Phone)
        ∧ m.License = (if p.License = "" then c.License else p.License)
        ∧ m.LicenseType = (if p.LicenseType = "" then c.LicenseType else p.LicenseType)
        ∧ (p.Name ≠ "" → p.LastName = "" → p.Email = "" → p.Phone = "" →
            p.License = "" → p.LicenseType = "" →
            m.Name = p.Name ∧ m.LastName = c.LastName ∧ m.Email = c.Email ∧ m.Phone = c.Phone
              ∧ m.License = c.License ∧ m.LicenseType = c.LicenseType) := by
  obtain ⟨h1, h2, h3, h4, h5, h6⟩ := driverMerge_fields c p
  refine ⟨driverUsecase.merge c p,
    (driverUpdate_valid parseOk dRepo s driverId c p hid hget hvalid).1,
    h1, h2, h3, h4, h5, h6, ?_⟩
  intro n1 n2 n3 n4 n5 n6
  simp only [n1, n2, n3, n4, n5, n6, if_true, if_false] at h1 h2 h3 h4 h5 h6
  exact ⟨h1, h2, h3, h4, h5, h6⟩

/-- Witness of C1: the stored driver 1 updated with a payload holding only the
name Lucas. -/
theorem C1_driver_update_merge_rule_witness :
    ∃ m : Driver,
      (driverUsecase.Update simpleParseOk memDriverRepo 1 (some nameOnlyPatch)
          [storedDriver]).calls = [.GetById 1 false, .Update m]
        ∧ m.Name = "Lucas" ∧ m.LastName = "Doe" ∧ m.Email = "john.doe@example.com"
        ∧ m.Phone = "1234567890" ∧ m.License = "ABC123" ∧ m.LicenseType = "A" := by
  obtain ⟨m, hc, _, _, _, _, _, _, h⟩ :=
    C1_driver_update_merge_rule simpleParseOk memDriverRepo [storedDriver] 1 storedDriver
      nameOnlyPatch (by decide) (by decide) (by decide)
  exact ⟨m, hc, h (by decide) (by decide) (by decide) (by decide) (by decide) (by decide)⟩

/-- C2: Update validates the merged record, not the payload. For driver Update
and vehicle Update with an identifier above zero, a stored record and a present
payload, the store's Update is called, exactly once and with the whole merged
record, if and only if Validate of the merged record reports nothing; otherwise
the operation returns exactly what Validate of the merged record returned and
the store's Update is never called. -/
theorem C2_update_validates_merged_record (parseOk : MailParser)
    (dRepo : DriverRepository σ) (vRepo : VehicleRepository τ) (s : σ) (t : τ)
    (driverId vehicleId : Int) (c p : Driver) (cv pv : Vehicle)
    (hid : 0 < driverId) (hvid : 0 < vehicleId)
    (hget : (dRepo.GetById driverId false s).1 = (some c, none))
    (hvget : (vRepo.GetById vehicleId t).1 = (some cv, none)) :
    (((driverUsecase.Update parseOk dRepo driverId (some p) s).calls.filter DriverCall.isUpdate
          = [.Update (driverUsecase.merge c p)])
        ↔ (driverUsecase.merge c p).Validate parseOk = none)
      ∧ ((driverUsecase.merge c p).Validate parseOk ≠ none →
          (driverUsecase.Update parseOk dRepo driverId (some p) s).ret
              = .returned ((driverUsecase.merge c p).Validate parseOk)
            ∧ (driverUsecase.Update parseOk dRepo driverId (some p) s).calls.filter
                DriverCall.isUpdate = [])
      ∧ (((vehicleUsecase.Update vRepo vehicleId (some pv) t).calls.filter VehicleCall.isUpdate
          = [.Update (vehicleUsecase.merge cv pv)])
        ↔ (vehicleUsecase.merge cv pv).Validate = none)
      ∧ ((vehicleUsecase.merge cv pv).Validate ≠ none →
          (vehicleUsecase.Update vRepo vehicleId (some pv) t).ret
              = .returned ((vehicleUsecase.merge cv pv).Validate)
            ∧ (vehicleUsecase.Update vRepo vehicleId (some pv) t).calls.filter
                VehicleCall.isUpdate = []) := by
  have hd : ∀ e, (driverUsecase.merge c p).Validate parseOk = some e →
      (driverUsecase.Update parseOk dRepo driverId (some p) s).ret = .returned (some e)
        ∧ (driverUsecase.Update parseOk dRepo driverId (some p) s).calls.filter
            DriverCall.isUpdate = [] := by
    intro e he
    obtain ⟨hc, hr⟩ := driverUpdate_invalid parseOk dRepo s driverId c p e hid hget he
    exact ⟨hr, by rw [hc]; rfl⟩
  have hv : ∀ e, (vehicleUsecase.merge cv pv).Validate = some e →
      (vehicleUsecase.Update vRepo vehicleId (some pv) t).ret = .returned (some e)
        ∧ (vehicleUsecase.Update vRepo vehicleId (some pv) t).calls.filter
            VehicleCall.isUpdate = [] := by
    intro e he
    obtain ⟨hc, hr⟩ := vehicleUpdate_invalid vRepo t vehicleId cv pv e hvid hvget he
    exact ⟨hr, by rw [hc]; rfl⟩
  refine ⟨⟨?_, ?_⟩, ?_, ⟨?_, ?_⟩, ?_⟩
  · intro hcalls
    cases he : (driverUsecase.merge c p).Validate parseOk with
    | none => rfl
    | some e => rw [(hd e he).2] at hcalls; cases hcalls
  · intro hvalid
    rw [(driverUpdate_valid parseOk dRepo s driverId c p hid hget hvalid).1]
    rfl
  · intro hne
    cases he : (driverUsecase.merge c p).Validate parseOk with
    | none => exact absurd he hne
    | some e => exact hd e he
  · intro hcalls
    cases he : (vehicleUsecase.merge cv pv).Validate with
    | none => rfl
    | some e => rw [(hv e he).2] at hcalls; cases hcalls
  · intro hvalid
    rw [(vehicleUpdate_valid vRepo t vehicleId cv pv hvid hvget hvalid).1]
    rfl
  · intro hne
    cases he : (vehicleUsecase.merge cv pv).Validate with
    | none => exact absurd he hne
    | some e => exact hv e he

/-- Witness of C2: a valid driver merge reaches the store, an invalid vehicle
merge is returned as its aggregate without reaching the store. -/
theorem C2_update_validates_merged_record_witness :
    (driverUsecase.Update simpleParseOk memDriverRepo 1 (some nameOnlyPatch)
        [storedDriver]).calls.filter DriverCall.isUpdate
        = [.Update (driverUsecase.merge storedDriver nameOnlyPatch)]
      ∧ (vehicleUsecase.Update memVehicleRepo 1 (some shortBrandPatch) [storedVehicle]).ret
        = .returned ((vehicleUsecase.merge storedVehicle shortBrandPatch).Validate)
      ∧ (vehicleUsecase.Update memVehicleRepo 1 (some shortBrandPatch)
          [storedVehicle]).calls.filter VehicleCall.isUpdate = [] := by
  have h := C2_update_validates_merged_record simpleParseOk memDriverRepo memVehicleRepo
    [storedDriver] [storedVehicle] 1 1 storedDriver nameOnlyPatch storedVehicle shortBrandPatch
    (by decide) (by decide) (by decide) (by decide)
  exact ⟨h.1.2 (by decide), h.2.2.2 (by decide)⟩

/-- C3: identifier guard. Every operation taking an identifier (driver GetById,
AddVehicle, Update, Delete; vehicle GetById, Update, Delete), given an
identifier at or below zero and any other arguments, an absent payload included,
returns the ErrorInvalidField whose messages are exactly "driver id is invalid"
(driver operations) or "vehicle id is invalid" (vehicle operations), and makes
no store call. -/
theorem C3_identifier_guard (parseOk : MailParser) (dRepo : DriverRepository σ)
    (vRepo : VehicleRepository τ) (s : σ) (t : τ) (id : Int) (includeVehicle : Bool)
    (vehicle : Option Vehicle) (updateDriver : Option Driver) (updateVehicle : Option Vehicle)
    (hid : id ≤ 0) :
    ((driverUsecase.GetById dRepo id includeVehicle s).ret
          = (none, some (.invalidField { Message := ["driver id is invalid"] }))
        ∧ (driverUsecase.GetById dRepo id includeVehicle s).calls = [])
      ∧ ((driverUsecase.AddVehicle dRepo id vehicle s).ret
          = some (.invalidField { Message := ["driver id is invalid"] })
        ∧ (driverUsecase.AddVehicle dRepo id vehicle s).calls = [])
      ∧ ((driverUsecase.Update parseOk dRepo id updateDriver s).ret
          = .returned (some (.invalidField { Message := ["driver id is invalid"] }))
        ∧ (driverUsecase.Update parseOk dRepo id updateDriver s).calls = [])
      ∧ ((driverUsecase.Delete dRepo id s).ret
          = some (.invalidField { Message := ["driver id is invalid"] })
        ∧ (driverUsecase.Delete dRepo id s).calls = [])
      ∧ ((vehicleUsecase.GetById vRepo id t).ret
          = (none, some (.invalidField { Message := ["vehicle id is invalid"] }))
        ∧ (vehicleUsecase.GetById vRepo id t).calls = [])
      ∧ ((vehicleUsecase.Update vRepo id updateVehicle t).ret
          = .returned (some (.invalidField { Message := ["vehicle id is invalid"] }))
        ∧ (vehicleUsecase.Update vRepo id updateVehicle t).calls = [])
      ∧ ((vehicleUsecase.Delete vRepo id t).ret
          = some (.invalidField { Message := ["vehicle id is invalid"] })
        ∧ (vehicleUsecase.Delete vRepo id t).calls = []) := by
  simp [driverUsecase.GetById, driverUsecase.AddVehicle, driverUsecase.Update,
    driverUsecase.Delete, vehicleUsecase.GetById, vehicleUsecase.Update, vehicleUsecase.Delete,
    hid]

/-- Witness of C3: identifier -1 with absent payloads, as in the tests. -/
theorem C3_identifier_guard_witness :
    (driverUsecase.AddVehicle memDriverRepo (-1) none [storedDriver]).ret
        = some (.invalidField { Message := ["driver id is invalid"] })
      ∧ (driverUsecase.Update simpleParseOk memDriverRepo (-1) none [storedDriver]).ret
        = .returned (some (.invalidField { Message := ["driver id is invalid"] }))
      ∧ (driverUsecase.Update simpleParseOk memDriverRepo (-1) none [storedDriver]).calls = []
      ∧ (vehicleUsecase.Update memVehicleRepo (-1) none [storedVehicle]).ret
        = .returned (some (.invalidField { Message := ["vehicle id is invalid"] })) := by
  have h := C3_identifier_guard simpleParseOk memDriverRepo memVehicleRepo [storedDriver]
    [storedVehicle] (-1) false none none none (by decide)
  exact ⟨h.2.1.1, h.2.2.1.1, h.2.2.1.2, h.2.2.2.2.2.1.1⟩

/-- C4: Update on a nonexistent record. For an identifier above zero for which
the store reports no record (nil record, nil error) and any present payload,
driver Update returns the sentinel ErrDriverNotFound, vehicle Update returns
the distinct sentinel ErrVehicleNotFound, and neither calls the store's
Update. -/
theorem C4_update_not_found (parseOk : MailParser) (dRepo : DriverRepository σ)
    (vRepo : VehicleRepository τ) (s : σ) (t : τ) (driverId vehicleId : Int)
    (p : Driver) (pv : Vehicle) (hid : 0 < driverId) (hvid : 0 < vehicleId)
    (hget : (dRepo.GetById driverId false s).1 = (none, none))
    (hvget : (vRepo.GetById vehicleId t).1 = (none, none)) :
    (driverUsecase.Update parseOk dRepo driverId (some p) s).ret
        = .returned (some ErrDriverNotFound)
      ∧ (∀ m, DriverCall.Update m ∉
          (driverUsecase.Update parseOk dRepo driverId (some p) s).calls)
      ∧ (vehicleUsecase.Update vRepo vehicleId (some pv) t).ret
        = .returned (some ErrVehicleNotFound)
      ∧ (∀ m, VehicleCall.Update m ∉
          (vehicleUsecase.Update vRepo vehicleId (some pv) t).calls)
      ∧ ErrDriverNotFound ≠ ErrVehicleNotFound := by
  have hn : ¬ driverId ≤ 0 := not_le.mpr hid
  have hvn : ¬ vehicleId ≤ 0 := not_le.mpr hvid
  refine ⟨?_, ?_, ?_, ?_, ?_⟩
  · simp [driverUsecase.Update, hn, hget]
  · intro m
    simp [driverUsecase.Update, hn, hget]
  · simp [vehicleUsecase.Update, hvn, hvget]
  · intro m
    simp [vehicleUsecase.Update, hvn, hvget]
  · simp [ErrDriverNotFound, ErrVehicleNotFound]

/-- Witness of C4: identifier 2 is not in the store; the driver payload is
valid on its own, the vehicle payload is not. -/
theorem C4_update_not_found_witness :
    (driverUsecase.Update simpleParseOk memDriverRepo 2 (some johnDoe) [storedDriver]).ret
        = .returned (some ErrDriverNotFound)
      ∧ (vehicleUsecase.Update memVehicleRepo 2 (some shortBrandPatch) [storedVehicle]).ret
        = .returned (some ErrVehicleNotFound) := by
  have h := C4_update_not_found simpleParseOk memDriverRepo memVehicleRepo [storedDriver]
    [storedVehicle] 2 2 johnDoe shortBrandPatch (by decide) (by decide) (by decide) (by decide)
  exact ⟨h.1, h.2.2.1⟩

/-- C5: AddVehicle on a nonexistent driver. For an identifier above zero and a
present vehicle that passes validation, if the store reports that no driver
with that identifier exists, AddVehicle returns ErrDriverNotFound and the
store's AddVehicle is never called: the only store call is the fetch. -/
theorem C5_add_vehicle_driver_not_found (dRepo : DriverRepository σ) (s : σ)
    (driverId : Int) (vehicle : Vehicle) (hid : 0 < driverId)
    (hvalid : vehicle.Validate = none)
    (hget : (dRepo.GetById driverId false s).1 = (none, none)) :
    (driverUsecase.AddVehicle dRepo driverId (some vehicle) s).ret = some ErrDriverNotFound
      ∧ (∀ d v, DriverCall.AddVehicle d v ∉
          (driverUsecase.AddVehicle dRepo driverId (some vehicle) s).calls)
      ∧ (driverUsecase.AddVehicle dRepo driverId (some vehicle) s).calls
          = [.GetById driverId false] := by
  have hn : ¬ driverId ≤ 0 := not_le.mpr hid
  refine ⟨?_, ?_, ?_⟩
  · simp [driverUsecase.AddVehicle, hn, hvalid, hget]
  · intro d v
    simp [driverUsecase.AddVehicle, hn, hvalid, hget]
  · simp [driverUsecase.AddVehicle, hn, hvalid, hget]

/-- Witness of C5: attaching a valid vehicle to driver 3, who is not stored. -/
theorem C5_add_vehicle_driver_not_found_witness :
    (driverUsecase.AddVehicle memDriverRepo 3 (some camry) [storedDriver]).ret
        = some ErrDriverNotFound
      ∧ (driverUsecase.AddVehicle memDriverRepo 3 (some camry) [storedDriver]).calls
        = [.GetById 3 false] := by
  have h := C5_add_vehicle_driver_not_found memDriverRepo [storedDriver] 3 camry
    (by decide) (by decide) (by decide)
  exact ⟨h.1, h.2.2⟩

/-- C6: Driver.Validate collects all violations in the fixed order, without
short-circuiting. For every driver the reported messages are exactly those of
the six messages (name, last name, email, phone, license, license type) whose
field check fails, in that order, each at most once; a driver failing all six
checks yields all six messages in that order; and the driver John Doe of the
tests yields none, provided `mail.ParseAddress` accepts his address. -/
theorem C6_driver_validate_fixed_order (parseOk : MailParser) (d : Driver) :
    messagesOf (d.Validate parseOk) = failing (d.checks parseOk)
      ∧ (d.checks parseOk).map (fun c => c.2) = driverMessages
      ∧ (messagesOf (d.Validate parseOk)).Sublist driverMessages
      ∧ (messagesOf (d.Validate parseOk)).Nodup
      ∧ (d.nameInvalid = true → d.lastNameInvalid = true → d.emailInvalid parseOk = true →
          d.phoneInvalid = true → d.licenseInvalid = true → d.licenseTypeInvalid = true →
          messagesOf (d.Validate parseOk) = driverMessages)
      ∧ (parseOk "john.doe@example.com" = true →
          johnDoe.Validate parseOk = none ∧ messagesOf (johnDoe.Validate parseOk) = []) := by
  have hsub : (messagesOf (d.Validate parseOk)).Sublist driverMessages := by
    rw [driver_messagesOf_Validate]
    exact failing_sublist (d.checks parseOk)
  refine ⟨driver_messagesOf_Validate parseOk d, rfl, hsub, hsub.nodup (by decide), ?_, ?_⟩
  · intro h1 h2 h3 h4 h5 h6
    rw [driver_messagesOf_Validate]
    simp [failing, Driver.checks, driverMessages, h1, h2, h3, h4, h5, h6]
  · intro hmail
    have hnone : johnDoe.Validate parseOk = none := by
      rw [driver_Validate_eq, if_pos]
      rw [failing_eq_nil]
      intro c hc
      simp only [Driver.checks, List.mem_cons, List.mem_singleton, List.not_mem_nil,
        or_false] at hc
      have he : johnDoe.emailInvalid parseOk = false := by
        simp [Driver.emailInvalid, johnDoe, hmail]
      rcases hc with h | h | h | h | h | h <;> rw [h]
      · decide
      · decide
      · exact he
      · decide
      · decide
      · decide
    exact ⟨hnone, by rw [hnone]; rfl⟩

/-- Witness of C6: the all-invalid driver of the tests yields the six messages
in order, and John Doe yields none, under a parser accepting his address. -/
theorem C6_driver_validate_fixed_order_witness :
    messagesOf (allInvalidDriver.Validate simpleParseOk) = driverMessages
      ∧ johnDoe.Validate simpleParseOk = none := by
  have h := C6_driver_validate_fixed_order simpleParseOk allInvalidDriver
  exact ⟨h.2.2.2.2.1 (by decide) (by decide) (by decide) (by decide) (by decide) (by decide),
    (h.2.2.2.2.2 (by decide)).1⟩

/-- Counterexample to C7 as stated: the brand of two characters that take four
bytes is shorter than 3 and is the only field that could be invalid, yet
Validate reports nothing, not the brand message. -/
theorem C7_short_brand_counterexample :
    twoCharBrandVehicle.Brand.length < 3
      ∧ twoCharBrandVehicle.vehicleModelInvalid = false
      ∧ twoCharBrandVehicle.yearInvalid = false
      ∧ twoCharBrandVehicle.plateInvalid = false
      ∧ messagesOf twoCharBrandVehicle.Validate = []
      ∧ messagesOf twoCharBrandVehicle.Validate ≠ ["vehicle brand is invalid"] := by
  decide

/-- C7, amended: Vehicle.Validate collects all violations in the fixed order,
without short-circuiting. For every vehicle the reported messages are exactly
those of the four messages (brand, model, year, plate) whose field check fails,
in that order, each at most once; a vehicle whose only failing check is a brand
of fewer than 3 bytes (Go's `len`), hence any brand of fewer than 3 characters
that are all ASCII, yields exactly the brand message, as does the vehicle T,
Camry, 2022, ABC-1234 of the tests. -/
theorem C7_vehicle_validate_fixed_order (v : Vehicle) :
    messagesOf v.Validate = failing v.checks
      ∧ v.checks.map (fun c => c.2) = vehicleMessages
      ∧ (messagesOf v.Validate).Sublist vehicleMessages
      ∧ (messagesOf v.Validate).Nodup
      ∧ (len v.Brand < 3 → v.vehicleModelInvalid = false → v.yearInvalid = false →
          v.plateInvalid = false → messagesOf v.Validate = ["vehicle brand is invalid"])
      ∧ (v.Brand.length < 3 → (∀ c ∈ v.Brand.data, c.toNat < 128) →
          v.vehicleModelInvalid = false → v.yearInvalid = false → v.plateInvalid = false →
          messagesOf v.Validate = ["vehicle brand is invalid"])
      ∧ messagesOf shortBrandVehicle.Validate = ["vehicle brand is invalid"] := by
  have hsub : (messagesOf v.Validate).Sublist vehicleMessages := by
    rw [vehicle_messagesOf_Validate]
    exact failing_sublist v.checks
  have hbrand : len v.Brand < 3 → v.vehicleModelInvalid = false → v.yearInvalid = false →
      v.plateInvalid = false → messagesOf v.Validate = ["vehicle brand is invalid"] := by
    intro hb h2 h3 h4
    have h1 : v.brandInvalid = true := by
      simp [Vehicle.brandInvalid, hb]
    rw [vehicle_messagesOf_Validate]
    simp [failing, Vehicle.checks, h1, h2, h3, h4]
  refine ⟨vehicle_messagesOf_Validate v, rfl, hsub, hsub.nodup (by decide), hbrand, ?_,
    by decide⟩
  intro hl hascii
  exact hbrand (by rw [len_of_ascii v.Brand hascii]; exact hl)

/-- Witness of C7: the short-brand vehicle of the tests, through the general
statement. -/
theorem C7_vehicle_validate_fixed_order_witness :
    len shortBrandVehicle.Brand < 3
      ∧ messagesOf shortBrandVehicle.Validate = ["vehicle brand is invalid"] :=
  ⟨by decide, (C7_vehicle_validate_fixed_order shortBrandVehicle).2.2.2.2.1
    (by decide) (by decide) (by decide) (by decide)⟩

/-- C8: an empty violation aggregate is never surfaced as a failure. For every
driver and every vehicle, Validate returns no error exactly when no field check
fails, and whatever error it returns is an ErrorInvalidField whose Message list
is non-empty. -/
theorem C8_empty_aggregate_never_surfaced (parseOk : MailParser) (d : Driver) (v : Vehicle) :
    (d.Validate parseOk = none ↔
        (d.nameInvalid = false ∧ d.lastNameInvalid = false ∧ d.emailInvalid parseOk = false
          ∧ d.phoneInvalid = false ∧ d.licenseInvalid = false ∧ d.licenseTypeInvalid = false))
      ∧ (∀ g, d.Validate parseOk = some g → ∃ e, g = .invalidField e ∧ e.Message ≠ [])
      ∧ (v.Validate = none ↔
        (v.brandInvalid = false ∧ v.vehicleModelInvalid = false ∧ v.yearInvalid = false
          ∧ v.plateInvalid = false))
      ∧ (∀ g, v.Validate = some g → ∃ e, g = .invalidField e ∧ e.Message ≠ []) := by
  refine ⟨?_, ?_, ?_, ?_⟩
  · rw [driver_Validate_eq]
    by_cases h : failing (d.checks parseOk) = []
    · simp only [h, if_true, true_iff]
      rw [failing_eq_nil] at h
      simpa [Driver.checks] using h
    · simp only [h, if_false, false_iff]
      rw [failing_eq_nil] at h
      simpa [Driver.checks] using h
  · intro g hg
    rw [driver_Validate_eq] at hg
    by_cases h : failing (d.checks parseOk) = []
    · simp [h] at hg
    · simp only [h, if_false, Option.some.injEq] at hg
      exact ⟨_, hg.symm, h⟩
  · rw [vehicle_Validate_eq]
    by_cases h : failing v.checks = []
    · simp only [h, if_true, true_iff]
      rw [failing_eq_nil] at h
      simpa [Vehicle.checks] using h
    · simp only [h, if_false, false_iff]
      rw [failing_eq_nil] at h
      simpa [Vehicle.checks] using h
  · intro g hg
    rw [vehicle_Validate_eq] at hg
    by_cases h : failing v.checks = []
    · simp [h] at hg
    · simp only [h, if_false, Option.some.injEq] at hg
      exact ⟨_, hg.symm, h⟩

/-- Witness of C8: John Doe is valid, so Validate returns `nil`; the short-brand
vehicle is not, and the error returned for it carries a message. -/
theorem C8_empty_aggregate_never_surfaced_witness :
    johnDoe.Validate simpleParseOk = none
      ∧ ∃ e, GoError.invalidField { Message := ["vehicle brand is invalid"] } = .invalidField e
          ∧ e.Message ≠ [] := by
  have h := C8_empty_aggregate_never_surfaced simpleParseOk johnDoe shortBrandVehicle
  exact ⟨h.1.2 (by decide), h.2.2.2 _ (by decide)⟩

/-- C9: Create never persists an invalid driver. The store's Create is called,
exactly once and with the given record, if and only if the record is present
and Driver.Validate reports nothing (the store's result is then returned); an
absent record yields the ErrorInvalidField "driver is invalid", a record with
violations yields exactly what Validate returned, and in both cases no store
call is made. -/
theorem C9_create_never_persists_invalid (parseOk : MailParser) (dRepo : DriverRepository σ)
    (s : σ) (driver : Option Driver) :
    (∀ d, (driverUsecase.Create parseOk dRepo driver s).calls.filter DriverCall.isCreate
          = [.Create d] ↔ (driver = some d ∧ d.Validate parseOk = none))
      ∧ (driver = none →
          (driverUsecase.Create parseOk dRepo driver s).ret
              = some (.invalidField { Message := ["driver is invalid"] })
            ∧ (driverUsecase.Create parseOk dRepo driver s).calls = [])
      ∧ (∀ d, driver = some d → d.Validate parseOk ≠ none →
          (driverUsecase.Create parseOk dRepo driver s).ret = d.Validate parseOk
            ∧ (driverUsecase.Create parseOk dRepo driver s).calls = [])
      ∧ (∀ d, driver = some d → d.Validate parseOk = none →
          (driverUsecase.Create parseOk dRepo driver s).calls = [.Create d]
            ∧ (driverUsecase.Create parseOk dRepo driver s).ret = (dRepo.Create d s).1) := by
  have hvalid : ∀ d, d.Validate parseOk = none →
      (driverUsecase.Create parseOk dRepo (some d) s).calls = [.Create d]
        ∧ (driverUsecase.Create parseOk dRepo (some d) s).ret = (dRepo.Create d s).1 := by
    intro d hd
    simp only [driverUsecase.Create, hd]
    cases h : (dRepo.Create d s).1 <;> simp
  have hinvalid : ∀ d e, d.Validate parseOk = some e →
      (driverUsecase.Create parseOk dRepo (some d) s).ret = some e
        ∧ (driverUsecase.Create parseOk dRepo (some d) s).calls = [] := by
    intro d e hd
    simp only [driverUsecase.Create, hd, and_self]
  refine ⟨?_, ?_, ?_, ?_⟩
  · intro d
    cases driver with
    | none => simp [driverUsecase.Create]
    | some d0 =>
      cases hd : d0.Validate parseOk with
      | none =>
        rw [(hvalid d0 hd).1]
        constructor
        · intro h
          simp only [List.filter, DriverCall.isCreate, List.cons.injEq, DriverCall.Create.injEq,
            and_true] at h
          subst h
          exact ⟨rfl, hd⟩
        · rintro ⟨h, -⟩
          cases h
          rfl
      | some e =>
        rw [(hinvalid d0 e hd).2]
        constructor
        · intro h
          cases h
        · rintro ⟨h, hn⟩
          cases h
          rw [hd] at hn
          cases hn
  · intro h
    subst h
    simp [driverUsecase.Create]
  · intro d h hne
    subst h
    cases hd : d.Validate parseOk with
    | none => exact absurd hd hne
    | some e => exact hinvalid d e hd
  · intro d h hd
    subst h
    exact hvalid d hd

/-- Witness of C9: John Doe is created through the store, the all-invalid
driver is not. -/
theorem C9_create_never_persists_invalid_witness :
    (driverUsecase.Create simpleParseOk memDriverRepo (some johnDoe) []).calls
        = [.Create johnDoe]
      ∧ (driverUsecase.Create simpleParseOk memDriverRepo (some allInvalidDriver) []).calls
        = []
      ∧ (driverUsecase.Create simpleParseOk memDriverRepo none []).ret
        = some (.invalidField { Message := ["driver is invalid"] }) :=
  ⟨((C9_create_never_persists_invalid simpleParseOk memDriverRepo [] (some johnDoe)).2.2.2
      johnDoe rfl (by decide)).1,
    ((C9_create_never_persists_invalid simpleParseOk memDriverRepo [] (some allInvalidDriver)).2.2.1
      allInvalidDriver rfl (by decide)).2,
    ((C9_create_never_persists_invalid simpleParseOk memDriverRepo [] none).2.1 rfl).1⟩

/-- C10: on the read path, not found is not an error. For an identifier above
zero for which the store reports no record (nil record, nil error, as GetById
of package repository does on ErrRecordNotFound), driver GetById, for either
value of includeVehicle, and vehicle GetById return a nil record together with
a nil error. -/
theorem C10_get_by_id_not_found_is_nil (dRepo : DriverRepository σ)
    (vRepo : VehicleRepository τ) (s : σ) (t : τ) (driverId vehicleId : Int)
    (includeVehicle : Bool) (hid : 0 < driverId) (hvid : 0 < vehicleId)
    (hget : (dRepo.GetById driverId includeVehicle s).1 = (none, none))
    (hvget : (vRepo.GetById vehicleId t).1 = (none, none)) :
    (driverUsecase.GetById dRepo driverId includeVehicle s).ret = (none, none)
      ∧ (vehicleUsecase.GetById vRepo vehicleId t).ret = (none, none) := by
  have hn : ¬ driverId ≤ 0 := not_le.mpr hid
  have hvn : ¬ vehicleId ≤ 0 := not_le.mpr hvid
  constructor
  · simp [driverUsecase.GetById, hn, hget]
  · simp [vehicleUsecase.GetById, hvn, hvget]

/-- Witness of C10: identifier 3 is in neither store. -/
theorem C10_get_by_id_not_found_is_nil_witness :
    (memDriverRepo.GetById 3 true [storedDriver]).1 = (none, none)
      ∧ (driverUsecase.GetById memDriverRepo 3 true [storedDriver]).ret = (none, none)
      ∧ (vehicleUsecase.GetById memVehicleRepo 3 [storedVehicle]).ret = (none, none) :=
  ⟨by decide,
    C10_get_by_id_not_found_is_nil memDriverRepo memVehicleRepo [storedDriver] [storedVehicle]
      3 3 true (by decide) (by decide) (by decide) (by decide)⟩

/-- The four merged fields of a vehicle, one by one. -/
theorem vehicleMerge_fields (c p : Vehicle) :
    (vehicleUsecase.merge c p).Brand = (if p.Brand = "" then c.Brand else p.Brand)
      ∧ (vehicleUsecase.merge c p).VehicleModel
          = (if p.VehicleModel = "" then c.VehicleModel else p.VehicleModel)
      ∧ (vehicleUsecase.merge c p).Plate = (if p.Plate = "" then c.Plate else p.Plate)
      ∧ (vehicleUsecase.merge c p).Year = (if p.Year = 0 then c.Year else p.Year) := by
  unfold vehicleUsecase.merge
  refine ⟨?_, ?_, ?_, ?_⟩ <;>
    by_cases h1 : p.Brand = "" <;> by_cases h2 : p.Plate = "" <;>
    by_cases h3 : p.VehicleModel = "" <;> by_cases h4 : p.Year = 0 <;>
    simp [h1, h2, h3, h4]

/-- Merging a driver into itself changes nothing. -/
theorem driverMerge_self (c : Driver) : driverUsecase.merge c c = c := by
  rcases c with ⟨m, n, l, e, ph, li, lt, vs⟩
  simp only [driverUsecase.merge]
  split_ifs <;> rfl

/-- Merging a vehicle into itself changes nothing. -/
theorem vehicleMerge_self (c : Vehicle) : vehicleUsecase.merge c c = c := by
  rcases c with ⟨m, b, vm, y, pl, di⟩
  simp only [vehicleUsecase.merge]
  split_ifs <;> rfl

/-- C11: AddVehicle rejects an invalid vehicle before touching the store. For an
identifier above zero and a present vehicle for which Vehicle.Validate reports
a violation, AddVehicle returns exactly what Validate returned and makes no
store call, neither the fetch nor the associate, whatever the store holds; an
absent vehicle likewise yields the ErrorInvalidField "vehicle is invalid" with
no store call. -/
theorem C11_add_vehicle_rejects_invalid_vehicle (dRepo : DriverRepository σ) (s : σ)
    (driverId : Int) (vehicle : Vehicle) (hid : 0 < driverId)
    (hinvalid : vehicle.Validate ≠ none) :
    (driverUsecase.AddVehicle dRepo driverId (some vehicle) s).ret = vehicle.Validate
      ∧ (driverUsecase.AddVehicle dRepo driverId (some vehicle) s).calls = []
      ∧ (driverUsecase.AddVehicle dRepo driverId none s).ret
          = some (.invalidField { Message := ["vehicle is invalid"] })
      ∧ (driverUsecase.AddVehicle dRepo driverId none s).calls = [] := by
  have hn : ¬ driverId ≤ 0 := not_le.mpr hid
  cases hv : vehicle.Validate with
  | none => exact absurd hv hinvalid
  | some e => simp [driverUsecase.AddVehicle, hn, hv]

/-- Witness of C11: the short-brand vehicle offered to the stored driver 1. -/
theorem C11_add_vehicle_rejects_invalid_vehicle_witness :
    (driverUsecase.AddVehicle memDriverRepo 1 (some shortBrandVehicle) [storedDriver]).ret
        = some (.invalidField { Message := ["vehicle brand is invalid"] })
      ∧ (driverUsecase.AddVehicle memDriverRepo 1 (some shortBrandVehicle)
          [storedDriver]).calls = [] := by
  have h := C11_add_vehicle_rejects_invalid_vehicle memDriverRepo [storedDriver] 1
    shortBrandVehicle (by decide) (by decide)
  exact ⟨h.1.trans (by decide), h.2.1⟩

/-- C12: AddVehicle success path. For an identifier above zero and a present
vehicle `v` that passes validation, if the store's GetById (without vehicles)
returns a driver `d` and no error, the store's AddVehicle is called exactly
once, with `d` and with `v` as the caller gave it, after the fetch, and its
result is what AddVehicle returns. -/
theorem C12_add_vehicle_success_path (dRepo : DriverRepository σ) (s : σ) (driverId : Int)
    (v : Vehicle) (d : Driver) (hid : 0 < driverId) (hvalid : v.Validate = none)
    (hget : (dRepo.GetById driverId false s).1 = (some d, none)) :
    (driverUsecase.AddVehicle dRepo driverId (some v) s).calls
        = [.GetById driverId false, .AddVehicle d v]
      ∧ (driverUsecase.AddVehicle dRepo driverId (some v) s).ret
        = (dRepo.AddVehicle d v (dRepo.GetById driverId false s).2).1
      ∧ (driverUsecase.AddVehicle dRepo driverId (some v) s).store
        = (dRepo.AddVehicle d v (dRepo.GetById driverId false s).2).2 := by
  have hn : ¬ driverId ≤ 0 := not_le.mpr hid
  simp only [driverUsecase.AddVehicle, hn, if_false, hvalid, hget]
  cases h : (dRepo.AddVehicle d v (dRepo.GetById driverId false s).2).1 <;> simp

/-- Witness of C12: the Camry is attached to the stored driver 1. -/
theorem C12_add_vehicle_success_path_witness :
    (driverUsecase.AddVehicle memDriverRepo 1 (some camry) [storedDriver]).calls
        = [.GetById 1 false, .AddVehicle storedDriver camry]
      ∧ (driverUsecase.AddVehicle memDriverRepo 1 (some camry) [storedDriver]).ret = none := by
  have h := C12_add_vehicle_success_path memDriverRepo [storedDriver] 1 camry storedDriver
    (by decide) (by decide) (by decide)
  exact ⟨h.1, h.2.1.trans (by decide)⟩

/-- C13: vehicle Update merge rule. For an identifier above zero, a record `c`
returned by the store and a present payload `p` whose merge is valid, the store
receives exactly one Update, and the record `m` handed to it has Brand,
VehicleModel and Plate equal to the value of `p` when that is a non-empty
string and to the value of `c` otherwise, and Year equal to the year of `p`
when it is nonzero and to the year of `c` when it is 0. -/
theorem C13_vehicle_update_merge_rule (vRepo : VehicleRepository σ) (s : σ) (vehicleId : Int)
    (c p : Vehicle) (hid : 0 < vehicleId)
    (hget : (vRepo.GetById vehicleId s).1 = (some c, none))
    (hvalid : (vehicleUsecase.merge c p).Validate = none) :
    ∃ m : Vehicle,
      (vehicleUsecase.Update vRepo vehicleId (some p) s).calls
          = [.GetById vehicleId, .Update m]
        ∧ m.Brand = (if p.Brand = "" then c.Brand else p.Brand)
        ∧ m.VehicleModel = (if p.VehicleModel = "" then c.VehicleModel else p.VehicleModel)
        ∧ m.Plate = (if p.Plate = "" then c.Plate else p.Plate)
        ∧ m.Year = (if p.Year = 0 then c.Year else p.Year) := by
  obtain ⟨h1, h2, h3, h4⟩ := vehicleMerge_fields c p
  exact ⟨vehicleUsecase.merge c p,
    (vehicleUpdate_valid vRepo s vehicleId c p hid hget hvalid).1, h1, h2, h3, h4⟩

/-- Witness of C13: the stored vehicle 1 updated with a payload holding only the
year 2023. -/
theorem C13_vehicle_update_merge_rule_witness :
    ∃ m : Vehicle,
      (vehicleUsecase.Update memVehicleRepo 1 (some yearOnlyPatch) [storedVehicle]).calls
          = [.GetById 1, .Update m]
        ∧ m.Brand = "Toyota" ∧ m.VehicleModel = "Camry" ∧ m.Plate = "ABC-1234"
        ∧ m.Year = 2023 := by
  obtain ⟨m, hc, h1, h2, h3, h4⟩ :=
    C13_vehicle_update_merge_rule memVehicleRepo [storedVehicle] 1 storedVehicle yearOnlyPatch
      (by decide) (by decide) (by decide)
  exact ⟨m, hc, h1.trans (by decide), h2.trans (by decide), h3.trans (by decide),
    h4.trans (by decide)⟩

/-- C14: merge idempotence. For a stored driver (resp. vehicle) record `c` with
an identifier above zero, Update called with `c` itself as the payload never
changes persisted field values: the merged record equals `c`, so either `c` is
valid and the record handed to the store's Update is `c`, or `c` is invalid and
nothing is persisted. -/
theorem C14_merge_idempotence (parseOk : MailParser) (dRepo : DriverRepository σ)
    (vRepo : VehicleRepository τ) (s : σ) (t : τ) (driverId vehicleId : Int)
    (c : Driver) (cv : Vehicle) (hid : 0 < driverId) (hvid : 0 < vehicleId)
    (hget : (dRepo.GetById driverId false s).1 = (some c, none))
    (hvget : (vRepo.GetById vehicleId t).1 = (some cv, none)) :
    (driverUsecase.merge c c = c
        ∧ (c.Validate parseOk = none →
            (driverUsecase.Update parseOk dRepo driverId (some c) s).calls
              = [.GetById driverId false, .Update c])
        ∧ (c.Validate parseOk ≠ none →
            (driverUsecase.Update parseOk dRepo driverId (some c) s).calls
              = [.GetById driverId false]))
      ∧ (vehicleUsecase.merge cv cv = cv
        ∧ (cv.Validate = none →
            (vehicleUsecase.Update vRepo vehicleId (some cv) t).calls
              = [.GetById vehicleId, .Update cv])
        ∧ (cv.Validate ≠ none →
            (vehicleUsecase.Update vRepo vehicleId (some cv) t).calls
              = [.GetById vehicleId])) := by
  refine ⟨⟨driverMerge_self c, ?_, ?_⟩, ⟨vehicleMerge_self cv, ?_, ?_⟩⟩
  · intro hv
    have h := (driverUpdate_valid parseOk dRepo s driverId c c hid hget
      (by rw [driverMerge_self]; exact hv)).1
    rw [driverMerge_self] at h
    exact h
  · intro hv
    cases he : c.Validate parseOk with
    | none => exact absurd he hv
    | some e =>
      exact (driverUpdate_invalid parseOk dRepo s driverId c c e hid hget
        (by rw [driverMerge_self]; exact he)).1
  · intro hv
    have h := (vehicleUpdate_valid vRepo t vehicleId cv cv hvid hvget
      (by rw [vehicleMerge_self]; exact hv)).1
    rw [vehicleMerge_self] at h
    exact h
  · intro hv
    cases he : cv.Validate with
    | none => exact absurd he hv
    | some e =>
      exact (vehicleUpdate_invalid vRepo t vehicleId cv cv e hvid hvget
        (by rw [vehicleMerge_self]; exact he)).1

/-- Witness of C14: the stored driver 1 and the stored vehicle 1, each sent back
as its own payload. -/
theorem C14_merge_idempotence_witness :
    (driverUsecase.Update simpleParseOk memDriverRepo 1 (some storedDriver)
        [storedDriver]).calls = [.GetById 1 false, .Update storedDriver]
      ∧ (vehicleUsecase.Update memVehicleRepo 1 (some storedVehicle) [storedVehicle]).calls
        = [.GetById 1, .Update storedVehicle] := by
  have h := C14_merge_idempotence simpleParseOk memDriverRepo memVehicleRepo [storedDriver]
    [storedVehicle] 1 1 storedDriver storedVehicle (by decide) (by decide) (by decide)
    (by decide)
  exact ⟨h.1.2.1 (by decide), h.2.2.1 (by decide)⟩

/-- C15: an update can never clear a field. For every stored record `c` and
every payload `p`, each merged string field (driver Name, LastName, Email,
Phone, License, LicenseType; vehicle Brand, VehicleModel, Plate) that is
non-empty in `c` is non-empty in the merged record, and a vehicle Year that is
nonzero in `c` is nonzero in the merged record. -/
theorem C15_update_never_clears_a_field (c p : Driver) (cv pv : Vehicle) :
    (c.Name ≠ "" → (driverUsecase.merge c p).Name ≠ "")
      ∧ (c.LastName ≠ "" → (driverUsecase.merge c p).LastName ≠ "")
      ∧ (c.Email ≠ "" → (driverUsecase.merge c p).Email ≠ "")
      ∧ (c.Phone ≠ "" → (driverUsecase.merge c p).Phone ≠ "")
      ∧ (c.License ≠ "" → (driverUsecase.merge c p).License ≠ "")
      ∧ (c.LicenseType ≠ "" → (driverUsecase.merge c p).LicenseType ≠ "")
      ∧ (cv.Brand ≠ "" → (vehicleUsecase.merge cv pv).Brand ≠ "")
      ∧ (cv.VehicleModel ≠ "" → (vehicleUsecase.merge cv pv).VehicleModel ≠ "")
      ∧ (cv.Plate ≠ "" → (vehicleUsecase.merge cv pv).Plate ≠ "")
      ∧ (cv.Year ≠ 0 → (vehicleUsecase.merge cv pv).Year ≠ 0) := by
  obtain ⟨h1, h2, h3, h4, h5, h6⟩ := driverMerge_fields c p
  obtain ⟨g1, g2, g3, g4⟩ := vehicleMerge_fields cv pv
  refine ⟨?_, ?_, ?_, ?_, ?_, ?_, ?_, ?_, ?_, ?_⟩
  · intro hc
    rw [h1]
    split <;> assumption
  · intro hc
    rw [h2]
    split <;> assumption
  · intro hc
    rw [h3]
    split <;> assumption
  · intro hc
    rw [h4]
    split <;> assumption
  · intro hc
    rw [h5]
    split <;> assumption
  · intro hc
    rw [h6]
    split <;> assumption
  · intro hc
    rw [g1]
    split <;> assumption
  · intro hc
    rw [g2]
    split <;> assumption
  · intro hc
    rw [g3]
    split <;> assumption
  · intro hc
    rw [g4]
    split <;> assumption

/-- Witness of C15: an all-empty payload merged into the stored records leaves
the name and the year in place. -/
theorem C15_update_never_clears_a_field_witness :
    (driverUsecase.merge storedDriver { }).Name ≠ ""
      ∧ (vehicleUsecase.merge storedVehicle { }).Year ≠ 0 := by
  have h := C15_update_never_clears_a_field storedDriver { } storedVehicle { }
  exact ⟨h.1 (by decide), h.2.2.2.2.2.2.2.2.2 (by decide)⟩

/-- C16: store failures are propagated unchanged. For every driver and vehicle
use case (GetAll, GetById, Create, AddVehicle, Update, Delete), whenever a store
call it makes fails with error `e`, the operation returns exactly `e` (with a
nil record or list where it has one) and the failing call is its last store
call; and GetAll returns the store's list unchanged when the store succeeds. -/
theorem C16_store_failures_propagated (parseOk : MailParser) (dRepo : DriverRepository σ)
    (vRepo : VehicleRepository τ) (s : σ) (t : τ) (id : Int) (includeVehicle : Bool)
    (d c p : Driver) (v cv pv : Vehicle) (updateDriver : Option Driver)
    (updateVehicle : Option Vehicle) (e : GoError) (hid : 0 < id) :
    ((dRepo.GetAll s).1.2 = some e →
        (driverUsecase.GetAll dRepo s).ret = (none, some e)
          ∧ (driverUsecase.GetAll dRepo s).calls = [.GetAll])
      ∧ ((dRepo.GetAll s).1.2 = none →
        (driverUsecase.GetAll dRepo s).ret = ((dRepo.GetAll s).1.1, none))
      ∧ ((dRepo.GetById id includeVehicle s).1.2 = some e →
        (driverUsecase.GetById dRepo id includeVehicle s).ret = (none, some e)
          ∧ (driverUsecase.GetById dRepo id includeVehicle s).calls
            = [.GetById id includeVehicle])
      ∧ (d.Validate parseOk = none → (dRepo.Create d s).1 = some e →
        (driverUsecase.Create parseOk dRepo (some d) s).ret = some e
          ∧ (driverUsecase.Create parseOk dRepo (some d) s).calls = [.Create d])
      ∧ (v.Validate = none → (dRepo.GetById id false s).1.2 = some e →
        (driverUsecase.AddVehicle dRepo id (some v) s).ret = some e
          ∧ (driverUsecase.AddVehicle dRepo id (some v) s).calls = [.GetById id false])
      ∧ (v.Validate = none → (dRepo.GetById id false s).1 = (some c, none) →
        (dRepo.AddVehicle c v (dRepo.GetById id false s).2).1 = some e →
        (driverUsecase.AddVehicle dRepo id (some v) s).ret = some e
          ∧ (driverUsecase.AddVehicle dRepo id (some v) s).calls
            = [.GetById id false, .AddVehicle c v])
      ∧ ((dRepo.GetById id false s).1.2 = some e →
        (driverUsecase.Update parseOk dRepo id updateDriver s).ret = .returned (some e)
          ∧ (driverUsecase.Update parseOk dRepo id updateDriver s).calls
            = [.GetById id false])
      ∧ ((dRepo.GetById id false s).1 = (some c, none) →
        (driverUsecase.merge c p).Validate parseOk = none →
        (dRepo.Update (driverUsecase.merge c p) (dRepo.GetById id false s).2).1 = some e →
        (driverUsecase.Update parseOk dRepo id (some p) s).ret = .returned (some e)
          ∧ (driverUsecase.Update parseOk dRepo id (some p) s).calls
            = [.GetById id false, .Update (driverUsecase.merge c p)])
      ∧ ((dRepo.Delete id s).1 = some e →
        (driverUsecase.Delete dRepo id s).ret = some e
          ∧ (driverUsecase.Delete dRepo id s).calls = [.Delete id])
      ∧ ((vRepo.GetAll t).1.2 = some e →
        (vehicleUsecase.GetAll vRepo t).ret = (none, some e)
          ∧ (vehicleUsecase.GetAll vRepo t).calls = [.GetAll])
      ∧ ((vRepo.GetAll t).1.2 = none →
        (vehicleUsecase.GetAll vRepo t).ret = ((vRepo.GetAll t).1.1, none))
      ∧ ((vRepo.GetById id t).1.2 = some e →
        (vehicleUsecase.GetById vRepo id t).ret = (none, some e)
          ∧ (vehicleUsecase.GetById vRepo id t).calls = [.GetById id])
      ∧ ((vRepo.GetById id t).1.2 = some e →
        (vehicleUsecase.Update vRepo id updateVehicle t).ret = .returned (some e)
          ∧ (vehicleUsecase.Update vRepo id updateVehicle t).calls = [.GetById id])
      ∧ ((vRepo.GetById id t).1 = (some cv, none) →
        (vehicleUsecase.merge cv pv).Validate = none →
        (vRepo.Update (vehicleUsecase.merge cv pv) (vRepo.GetById id t).2).1 = some e →
        (vehicleUsecase.Update vRepo id (some pv) t).ret = .returned (some e)
          ∧ (vehicleUsecase.Update vRepo id (some pv) t).calls
            = [.GetById id, .Update (vehicleUsecase.merge cv pv)])
      ∧ ((vRepo.Delete id t).1 = some e →
        (vehicleUsecase.Delete vRepo id t).ret = some e
          ∧ (vehicleUsecase.Delete vRepo id t).calls = [.Delete id]) := by
  have hn : ¬ id ≤ 0 := not_le.mpr hid
  refine ⟨?_, ?_, ?_, ?_, ?_, ?_, ?_, ?_, ?_, ?_, ?_, ?_, ?_, ?_, ?_⟩
  · intro h
    simp [driverUsecase.GetAll, h]
  · intro h
    simp [driverUsecase.GetAll, h]
  · intro h
    simp [driverUsecase.GetById, hn, h]
  · intro hv h
    simp [driverUsecase.Create, hv, h]
  · intro hv h
    simp [driverUsecase.AddVehicle, hn, hv, h]
  · intro hv hg h
    simp [driverUsecase.AddVehicle, hn, hv, hg, h]
  · intro h
    simp [driverUsecase.Update, hn, h]
  · intro hg hv h
    simp [driverUsecase.Update, hn, hg, hv, h]
  · intro h
    simp [driverUsecase.Delete, hn, h]
  · intro h
    simp [vehicleUsecase.GetAll, h]
  · intro h
    simp [vehicleUsecase.GetAll, h]
  · intro h
    simp [vehicleUsecase.GetById, hn, h]
  · intro h
    simp [vehicleUsecase.Update, hn, h]
  · intro hg hv h
    simp [vehicleUsecase.Update, hn, hg, hv, h]
  · intro h
    simp [vehicleUsecase.Delete, hn, h]

/-- Witness of C16: a store whose fetch fails, and a store whose Update fails
after a successful fetch and a valid merge. -/
theorem C16_store_failures_propagated_witness :
    (driverUsecase.GetById failingDriverRepo 1 true ()).ret = (none, some someError)
      ∧ (driverUsecase.Update simpleParseOk failingWriteDriverRepo 1 (some nameOnlyPatch)
          [storedDriver]).ret = .returned (some someError)
      ∧ (driverUsecase.Update simpleParseOk failingWriteDriverRepo 1 (some nameOnlyPatch)
          [storedDriver]).calls
        = [.GetById 1 false, .Update (driverUsecase.merge storedDriver nameOnlyPatch)]
      ∧ (vehicleUsecase.Delete failingVehicleRepo 1 ()).ret = some someError := by
  have h1 := C16_store_failures_propagated simpleParseOk failingDriverRepo failingVehicleRepo
    () () 1 true johnDoe storedDriver nameOnlyPatch camry storedVehicle yearOnlyPatch none none
    someError (by decide)
  have h2 := C16_store_failures_propagated simpleParseOk failingWriteDriverRepo
    failingVehicleRepo [storedDriver] () 1 true johnDoe storedDriver nameOnlyPatch camry
    storedVehicle yearOnlyPatch none none someError (by decide)
  exact ⟨(h1.2.2.1 (by decide)).1,
    (h2.2.2.2.2.2.2.2.1 (by decide) (by decide) (by decide)).1,
    (h2.2.2.2.2.2.2.2.1 (by decide) (by decide) (by decide)).2,
    (h1.2.2.2.2.2.2.2.2.2.2.2.2.2.2 (by decide)).1⟩

/-- Counterexample to C17 as stated: identifier 2 is in neither store, yet both
Delete use cases call the store's Delete, and neither makes a fetch first. -/
theorem C17_delete_exists_check_counterexample :
    ((memDriverRepo.GetById 2 false [storedDriver]).1 = (none, none)
        ∧ DriverCall.Delete 2 ∈ (driverUsecase.Delete memDriverRepo 2 [storedDriver]).calls
        ∧ DriverCall.GetById 2 false ∉
            (driverUsecase.Delete memDriverRepo 2 [storedDriver]).calls)
      ∧ ((memVehicleRepo.GetById 2 [storedVehicle]).1 = (none, none)
        ∧ VehicleCall.Delete 2 ∈ (vehicleUsecase.Delete memVehicleRepo 2 [storedVehicle]).calls
        ∧ VehicleCall.GetById 2 ∉
            (vehicleUsecase.Delete memVehicleRepo 2 [storedVehicle]).calls) := by
  decide

/-- C17, amended: driver Delete and vehicle Delete with an identifier above zero
make no fetch or exists check: whether or not the store holds a record, their
only store call is the store's Delete with that identifier, and they return its
result. -/
theorem C17_delete_delegates_to_store (dRepo : DriverRepository σ)
    (vRepo : VehicleRepository τ) (s : σ) (t : τ) (driverId vehicleId : Int)
    (hid : 0 < driverId) (hvid : 0 < vehicleId) :
    ((driverUsecase.Delete dRepo driverId s).calls = [.Delete driverId]
        ∧ (driverUsecase.Delete dRepo driverId s).ret = (dRepo.Delete driverId s).1)
      ∧ ((vehicleUsecase.Delete vRepo vehicleId t).calls = [.Delete vehicleId]
        ∧ (vehicleUsecase.Delete vRepo vehicleId t).ret = (vRepo.Delete vehicleId t).1) := by
  have hn : ¬ driverId ≤ 0 := not_le.mpr hid
  have hvn : ¬ vehicleId ≤ 0 := not_le.mpr hvid
  constructor
  · simp only [driverUsecase.Delete, hn, if_false]
    cases h : (dRepo.Delete driverId s).1 <;> simp
  · simp only [vehicleUsecase.Delete, hvn, if_false]
    cases h : (vRepo.Delete vehicleId t).1 <;> simp

/-- Witness of C17, amended: deleting identifier 2, stored nowhere. -/
theorem C17_delete_delegates_to_store_witness :
    (driverUsecase.Delete memDriverRepo 2 [storedDriver]).calls = [.Delete 2]
      ∧ (vehicleUsecase.Delete memVehicleRepo 2 [storedVehicle]).calls = [.Delete 2] := by
  have h := C17_delete_delegates_to_store memDriverRepo memVehicleRepo [storedDriver]
    [storedVehicle] 2 2 (by decide) (by decide)
  exact ⟨h.1.1, h.2.1⟩

/-- Update with an absent payload, after a successful fetch of an existing
record, dereferences the nil payload: both use cases panic, having made the
fetch only. -/
theorem update_absent_payload_panics (parseOk : MailParser) (dRepo : DriverRepository σ)
    (vRepo : VehicleRepository τ) (s : σ) (t : τ) (driverId vehicleId : Int)
    (c : Driver) (cv : Vehicle) (hid : 0 < driverId) (hvid : 0 < vehicleId)
    (hget : (dRepo.GetById driverId false s).1 = (some c, none))
    (hvget : (vRepo.GetById vehicleId t).1 = (some cv, none)) :
    ((driverUsecase.Update parseOk dRepo driverId none s).ret = .panicked
        ∧ (driverUsecase.Update parseOk dRepo driverId none s).calls = [.GetById driverId false])
      ∧ ((vehicleUsecase.Update vRepo vehicleId none t).ret = .panicked
        ∧ (vehicleUsecase.Update vRepo vehicleId none t).calls = [.GetById vehicleId]) := by
  have hn : ¬ driverId ≤ 0 := not_le.mpr hid
  have hvn : ¬ vehicleId ≤ 0 := not_le.mpr hvid
  constructor
  · simp [driverUsecase.Update, hn, hget]
  · simp [vehicleUsecase.Update, hvn, hvget]

/-- C18, the code at the failing input: with identifier 1, the stored record 1
and an absent payload, driver Update and vehicle Update do not return an
ErrorInvalidField; they panic on the nil payload after the fetch. Nothing is
persisted. -/
theorem C18_update_absent_payload_panics :
    ((driverUsecase.Update simpleParseOk memDriverRepo 1 none [storedDriver]).ret = .panicked
        ∧ (driverUsecase.Update simpleParseOk memDriverRepo 1 none [storedDriver]).calls
          = [.GetById 1 false])
      ∧ ((vehicleUsecase.Update memVehicleRepo 1 none [storedVehicle]).ret = .panicked
        ∧ (vehicleUsecase.Update memVehicleRepo 1 none [storedVehicle]).calls
          = [.GetById 1]) := by
  decide

/-- The name message is reported exactly when the name check fails. -/
theorem name_message_mem (parseOk : MailParser) (d : Driver) :
    "driver name is invalid" ∈ messagesOf (d.Validate parseOk) ↔ d.nameInvalid = true := by
  rw [driver_messagesOf_Validate, mem_failing]
  simp [Driver.checks]

/-- The last name message is reported exactly when the last name check fails. -/
theorem lastName_message_mem (parseOk : MailParser) (d : Driver) :
    "driver last name is invalid" ∈ messagesOf (d.Validate parseOk)
      ↔ d.lastNameInvalid = true := by
  rw [driver_messagesOf_Validate, mem_failing]
  simp [Driver.checks]

/-- The plate message is reported exactly when the plate check fails. -/
theorem plate_message_mem (v : Vehicle) :
    "vehicle plate is invalid" ∈ messagesOf v.Validate ↔ v.plateInvalid = true := by
  rw [vehicle_messagesOf_Validate, mem_failing]
  simp [Vehicle.checks]

/-- The condition `s == "" || len(s) < 3` is the condition `len(s) < 3`. -/
theorem empty_or_short_iff (s : String) :
    (decide (s = "") || decide (len s < 3)) = true ↔ len s < 3 := by
  simp only [Bool.or_eq_true, decide_eq_true_eq]
  constructor
  · rintro (h | h)
    · subst h
      decide
    · exact h
  · exact Or.inr

/-- Counterexample to C19 as stated: a name, and a last name, of two characters
that take four bytes are not flagged. -/
theorem C19_short_names_counterexample :
    (twoCharNameDriver.Name.length < 3
        ∧ "driver name is invalid" ∉ messagesOf (twoCharNameDriver.Validate simpleParseOk))
      ∧ (twoCharLastNameDriver.LastName.length < 3
        ∧ "driver last name is invalid" ∉
            messagesOf (twoCharLastNameDriver.Validate simpleParseOk)) := by
  decide

/-- C19, amended: the length that counts is the byte length of the name, Go's
`len`. For every driver, "driver name is invalid" (resp. "driver last name is
invalid") is reported exactly when Name (resp. LastName) has fewer than 3
bytes, hence for every name of fewer than 3 characters that are all ASCII, and
it is the only message when every other check passes; conversely a name of 3 or
more characters is never flagged. -/
theorem C19_short_names_flagged_by_byte_length (parseOk : MailParser) (d : Driver) :
    ("driver name is invalid" ∈ messagesOf (d.Validate parseOk) ↔ len d.Name < 3)
      ∧ ("driver last name is invalid" ∈ messagesOf (d.Validate parseOk)
          ↔ len d.LastName < 3)
      ∧ (len d.Name < 3 → d.lastNameInvalid = false → d.emailInvalid parseOk = false →
          d.phoneInvalid = false → d.licenseInvalid = false → d.licenseTypeInvalid = false →
          messagesOf (d.Validate parseOk) = ["driver name is invalid"])
      ∧ (len d.LastName < 3 → d.nameInvalid = false → d.emailInvalid parseOk = false →
          d.phoneInvalid = false → d.licenseInvalid = false → d.licenseTypeInvalid = false →
          messagesOf (d.Validate parseOk) = ["driver last name is invalid"])
      ∧ (d.Name.length < 3 → (∀ c ∈ d.Name.data, c.toNat < 128) →
          "driver name is invalid" ∈ messagesOf (d.Validate parseOk))
      ∧ (d.LastName.length < 3 → (∀ c ∈ d.LastName.data, c.toNat < 128) →
          "driver last name is invalid" ∈ messagesOf (d.Validate parseOk))
      ∧ (3 ≤ d.Name.length → "driver name is invalid" ∉ messagesOf (d.Validate parseOk))
      ∧ (3 ≤ d.LastName.length →
          "driver last name is invalid" ∉ messagesOf (d.Validate parseOk)) := by
  have hn : "driver name is invalid" ∈ messagesOf (d.Validate parseOk) ↔ len d.Name < 3 := by
    rw [name_message_mem]
    exact empty_or_short_iff d.Name
  have hl : "driver last name is invalid" ∈ messagesOf (d.Validate parseOk)
      ↔ len d.LastName < 3 := by
    rw [lastName_message_mem]
    exact empty_or_short_iff d.LastName
  refine ⟨hn, hl, ?_, ?_, ?_, ?_, ?_, ?_⟩
  · intro h1 h2 h3 h4 h5 h6
    have h0 : d.nameInvalid = true := (empty_or_short_iff d.Name).mpr h1
    rw [driver_messagesOf_Validate]
    simp [failing, Driver.checks, h0, h2, h3, h4, h5, h6]
  · intro h1 h2 h3 h4 h5 h6
    have h0 : d.lastNameInvalid = true := (empty_or_short_iff d.LastName).mpr h1
    rw [driver_messagesOf_Validate]
    simp [failing, Driver.checks, h0, h2, h3, h4, h5, h6]
  · intro h1 h2
    rw [hn, len_of_ascii d.Name h2]
    exact h1
  · intro h1 h2
    rw [hl, len_of_ascii d.LastName h2]
    exact h1
  · intro h1
    rw [hn]
    have := length_le_len d.Name
    omega
  · intro h1
    rw [hl]
    have := length_le_len d.LastName
    omega

/-- Witness of C19, amended: the driver of the tests named L. -/
theorem C19_short_names_flagged_by_byte_length_witness :
    len shortNameDriver.Name < 3
      ∧ messagesOf (shortNameDriver.Validate simpleParseOk) = ["driver name is invalid"] :=
  ⟨by decide,
    (C19_short_names_flagged_by_byte_length simpleParseOk shortNameDriver).2.2.1
      (by decide) (by decide) (by decide) (by decide) (by decide) (by decide)⟩

/-- A plate of the form with four alphanumeric characters is of the form with
four word characters. -/
theorem plateForm_alphanumeric_word (plate : String)
    (h : plateForm isAlphanumeric plate = true) : plateForm isWordChar plate = true := by
  unfold plateForm at h ⊢
  split at h
  · rename_i a b c x w1 w2 w3 w4 hs
    simp only [Bool.and_eq_true] at h
    obtain ⟨⟨⟨⟨⟨⟨⟨ha, hb⟩, hc⟩, hh⟩, h1⟩, h2⟩, h3⟩, h4⟩ := h
    simp [isWordChar, ha, hb, hc, hh, h1, h2, h3, h4]
  · exact absurd h (by simp)

/-- Counterexample to C20 as stated: the plate ABC-12_4 does not end in four
alphanumeric characters, yet Validate does not report it. -/
theorem C20_plate_format_counterexample :
    plateForm isAlphanumeric underscorePlateVehicle.Plate = false
      ∧ "vehicle plate is invalid" ∉ messagesOf underscorePlateVehicle.Validate := by
  decide

/-- C20, amended: the four last characters are word characters. For every
vehicle, "vehicle plate is invalid" is reported exactly when the plate is not
made of exactly three uppercase letters A to Z, a hyphen, and exactly four
characters that are each an ASCII letter, a digit or the underscore; a plate
whose four last characters are letters or digits is therefore never reported. -/
theorem C20_plate_format_word_characters (v : Vehicle) :
    ("vehicle plate is invalid" ∈ messagesOf v.Validate
        ↔ plateForm isWordChar v.Plate = false)
      ∧ (plateForm isAlphanumeric v.Plate = true →
          "vehicle plate is invalid" ∉ messagesOf v.Validate) := by
  have h : "vehicle plate is invalid" ∈ messagesOf v.Validate
      ↔ plateForm isWordChar v.Plate = false := by
    rw [plate_message_mem, Vehicle.plateInvalid, regexPlate_MatchString]
    cases plateForm isWordChar v.Plate <;> simp
  refine ⟨h, ?_⟩
  intro ha
  rw [h, plateForm_alphanumeric_word v.Plate ha]
  simp

/-- Witness of C20, amended: the plate ABC-1234 of the tests is not reported. -/
theorem C20_plate_format_word_characters_witness :
    plateForm isAlphanumeric camry.Plate = true
      ∧ "vehicle plate is invalid" ∉ messagesOf camry.Validate :=
  ⟨by decide, (C20_plate_format_word_characters camry).2 (by decide)⟩

theorem alnum_eq_cls : alnum = .cls isAlphanumeric := by
  unfold alnum
  congr 1
  funext c
  have e1 : 'A'.toNat = 65 := rfl
  have e2 : 'Z'.toNat = 90 := rfl
  have e3 : 'a'.toNat = 97 := rfl
  have e4 : 'z'.toNat = 122 := rfl
  have e5 : '0'.toNat = 48 := rfl
  have e6 : '9'.toNat = 57 := rfl
  simp only [isAlphanumeric, isUpperLetter, isLowerLetter, isDigitChar, e1, e2, e3, e4, e5, e6]
  cases decide (48 ≤ c.toNat) <;> cases decide (c.toNat ≤ 57) <;>
    cases decide (65 ≤ c.toNat) <;> cases decide (c.toNat ≤ 90) <;>
    cases decide (97 ≤ c.toNat) <;> cases decide (c.toNat ≤ 122) <;> rfl

theorem digit_eq_cls : digit = .cls isDigitChar := rfl

/-- The pattern regexLicense matches exactly the strings of 6 to 11 characters
that are all ASCII letters or digits. -/
theorem regexLicense_MatchString (license : String) :
    regexLicense.MatchString license = licenseForm license := by
  rw [Bool.eq_iff_iff]
  show regexLicense.body.fullMatch license.data = true ↔ _
  rw [fullMatch_iff]
  simp only [regexLicense, alnum_eq_cls, mem_run_rep_cls, licenseForm, String.length,
    Bool.and_eq_true, decide_eq_true_eq, List.all_eq_true]
  constructor
  · rintro ⟨pre, hs, h1, h2, hall⟩
    rw [List.append_nil] at hs
    subst hs
    exact ⟨⟨h1, h2⟩, hall⟩
  · rintro ⟨⟨h1, h2⟩, hall⟩
    exact ⟨license.data, by simp, h1, h2, hall⟩

theorem licenseForm_iff (license : String) :
    licenseForm license = true ↔
      6 ≤ license.length ∧ license.length ≤ 11
        ∧ ∀ c ∈ license.data, isAlphanumeric c = true := by
  simp only [licenseForm, Bool.and_eq_true, decide_eq_true_eq, List.all_eq_true, and_assoc]

/-- The license message is reported exactly when the license check fails. -/
theorem license_message_mem (parseOk : MailParser) (d : Driver) :
    "driver license is invalid" ∈ messagesOf (d.Validate parseOk)
      ↔ d.licenseInvalid = true := by
  rw [driver_messagesOf_Validate, mem_failing]
  simp [Driver.checks]

/-- The license type message is reported exactly when its check fails. -/
theorem licenseType_message_mem (parseOk : MailParser) (d : Driver) :
    "driver license type is invalid" ∈ messagesOf (d.Validate parseOk)
      ↔ d.licenseTypeInvalid = true := by
  rw [driver_messagesOf_Validate, mem_failing]
  simp [Driver.checks]

/-- The phone message is reported exactly when the phone check fails. -/
theorem phone_message_mem (parseOk : MailParser) (d : Driver) :
    "driver phone is invalid" ∈ messagesOf (d.Validate parseOk) ↔ d.phoneInvalid = true := by
  rw [driver_messagesOf_Validate, mem_failing]
  simp [Driver.checks]

/-- The year message is reported exactly when the year check fails. -/
theorem year_message_mem (v : Vehicle) :
    "vehicle year is invalid" ∈ messagesOf v.Validate ↔ v.yearInvalid = true := by
  rw [vehicle_messagesOf_Validate, mem_failing]
  simp [Vehicle.checks]

theorem licenseTypeInvalid_iff (d : Driver) :
    d.licenseTypeInvalid = true ↔ d.LicenseType ∉ licenseTypeCodes := by
  simp only [Driver.licenseTypeInvalid, licenseTypeCodes, LicenseTypeA, LicenseTypeB,
    LicenseTypeC, LicenseTypeD, LicenseTypeACC, LicenseTypeA1, LicenseTypeAB, LicenseTypeB1,
    LicenseTypeC1, LicenseTypeD1, LicenseTypeBE, LicenseTypeCE, LicenseTypeC1E, LicenseTypeDE,
    LicenseTypeD1E, Bool.not_eq_true', decide_eq_false_iff_not, List.mem_cons,
    List.mem_singleton, List.not_mem_nil, or_false]
  tauto

/-- C22: license number format. For every driver, "driver license is invalid" is
reported exactly when the license is not a string of between 6 and 11
characters, inclusive, all of which are ASCII letters or digits; so lengths 5
and 12 are rejected, and lengths 6 and 11 are accepted when every character is
an ASCII letter or digit. -/
theorem C22_license_format (parseOk : MailParser) (d : Driver) :
    ("driver license is invalid" ∈ messagesOf (d.Validate parseOk) ↔
        ¬ (6 ≤ d.License.length ∧ d.License.length ≤ 11
            ∧ ∀ c ∈ d.License.data, isAlphanumeric c = true))
      ∧ ((d.License.length = 5 ∨ d.License.length = 12) →
          "driver license is invalid" ∈ messagesOf (d.Validate parseOk))
      ∧ ((d.License.length = 6 ∨ d.License.length = 11) →
          (∀ c ∈ d.License.data, isAlphanumeric c = true) →
          "driver license is invalid" ∉ messagesOf (d.Validate parseOk)) := by
  have h : "driver license is invalid" ∈ messagesOf (d.Validate parseOk) ↔
      ¬ (6 ≤ d.License.length ∧ d.License.length ≤ 11
          ∧ ∀ c ∈ d.License.data, isAlphanumeric c = true) := by
    rw [license_message_mem, Driver.licenseInvalid, regexLicense_MatchString,
      ← licenseForm_iff]
    cases licenseForm d.License <;> simp
  refine ⟨h, ?_, ?_⟩
  · intro hl
    rw [h]
    rintro ⟨h1, h2, -⟩
    omega
  · intro hl hall
    rw [h, not_not]
    exact ⟨by omega, by omega, hall⟩

/-- Witness of C22: the licenses of the tests, ABC123 accepted and ABC
rejected, and a license of 12 characters rejected. -/
theorem C22_license_format_witness :
    "driver license is invalid" ∉ messagesOf (johnDoe.Validate simpleParseOk)
      ∧ "driver license is invalid" ∈
          messagesOf (Driver.Validate simpleParseOk { johnDoe with License := "ABC123456789" }) :=
  ⟨(C22_license_format simpleParseOk johnDoe).2.2 (by decide) (by decide),
    (C22_license_format simpleParseOk { johnDoe with License := "ABC123456789" }).2.1
      (by decide)⟩

/-- C23: license class set. For every driver, "driver license type is invalid"
is reported exactly when LicenseType is not one of the 15 distinct codes ACC, A,
A1, AB, B, B1, C, C1, D, D1, BE, CE, C1E, DE, D1E, compared exactly; the empty
string, "X" and the lowercase "a" are rejected. -/
theorem C23_license_type_set (parseOk : MailParser) (d : Driver) :
    ("driver license type is invalid" ∈ messagesOf (d.Validate parseOk)
        ↔ d.LicenseType ∉ licenseTypeCodes)
      ∧ licenseTypeCodes.length = 15
      ∧ licenseTypeCodes.Nodup
      ∧ "" ∉ licenseTypeCodes ∧ "X" ∉ licenseTypeCodes ∧ "a" ∉ licenseTypeCodes := by
  refine ⟨?_, rfl, by decide, by decide, by decide, by decide⟩
  rw [licenseType_message_mem, licenseTypeInvalid_iff]

/-- C24: model year bound. For every vehicle, "vehicle year is invalid" is
reported exactly when Year is at most 1886; the year 1886 itself and every zero
or negative year are rejected, and 1887 is accepted. -/
theorem C24_model_year_bound (v : Vehicle) :
    ("vehicle year is invalid" ∈ messagesOf v.Validate ↔ v.Year ≤ 1886)
      ∧ (v.Year = 1886 → "vehicle year is invalid" ∈ messagesOf v.Validate)
      ∧ (v.Year ≤ 0 → "vehicle year is invalid" ∈ messagesOf v.Validate)
      ∧ (v.Year = 1887 → "vehicle year is invalid" ∉ messagesOf v.Validate) := by
  have h : "vehicle year is invalid" ∈ messagesOf v.Validate ↔ v.Year ≤ 1886 := by
    rw [year_message_mem]
    simp [Vehicle.yearInvalid]
  refine ⟨h, ?_, ?_, ?_⟩
  · intro hy
    rw [h]
    omega
  · intro hy
    rw [h]
    omega
  · intro hy
    rw [h]
    omega

/-- Witness of C24: the year 1886 of the tests is rejected and 1887 is
accepted. -/
theorem C24_model_year_bound_witness :
    "vehicle year is invalid" ∈ messagesOf (Vehicle.Validate { camry with Year := 1886 })
      ∧ "vehicle year is invalid" ∉ messagesOf (Vehicle.Validate { camry with Year := 1887 }) :=
  ⟨(C24_model_year_bound { camry with Year := 1886 }).2.1 rfl,
    (C24_model_year_bound { camry with Year := 1887 }).2.2.2 rfl⟩

/-- The accumulator of `String.intercalate` can be split off. -/
theorem intercalate_go_append (sep : String) :
    ∀ (l : List String) (x y : String),
      String.intercalate.go (x ++ y) sep l = x ++ String.intercalate.go y sep l := by
  intro l
  induction l with
  | nil =>
    intro x y
    rfl
  | cons a l ih =>
    intro x y
    simp only [String.intercalate.go]
    rw [String.append_assoc, String.append_assoc, ih, ← String.append_assoc]

/-- C26: aggregate rendering. For every ErrorInvalidField, Error() is the
messages joined in order with the delimiter "," and nothing else: the empty
string for no message, the message itself for one message, and the first
message, a comma and the rendering of the rest for several. -/
theorem C26_aggregate_rendering (m m1 m2 : String) (ms : List String) :
    ErrorInvalidField.Error { Message := [] } = ""
      ∧ ErrorInvalidField.Error { Message := [m] } = m
      ∧ ErrorInvalidField.Error { Message := m1 :: m2 :: ms }
          = m1 ++ "," ++ ErrorInvalidField.Error { Message := m2 :: ms }
      ∧ ErrorInvalidField.Error { Message := ["license is invalid", "licenseType is invalid"] }
          = "license is invalid,licenseType is invalid" := by
  refine ⟨rfl, rfl, ?_, by decide⟩
  show String.intercalate.go (m1 ++ "," ++ m2) "," ms
    = m1 ++ "," ++ String.intercalate.go m2 "," ms
  exact intercalate_go_append "," ms (m1 ++ ",") m2

/-- Among the messages of a list of checks, turning one failing check into a
passing one removes exactly its message, when no earlier check shares it. -/
theorem failing_fix (pre post : List (Bool × String)) (m : String)
    (hpre : ∀ c ∈ pre, c.2 ≠ m) :
    oneFewer m (failing (pre ++ (true, m) :: post)) (failing (pre ++ (false, m) :: post)) := by
  unfold oneFewer
  induction pre with
  | nil =>
    simp [failing]
  | cons c pre ih =>
    obtain ⟨b, n⟩ := c
    have hn : n ≠ m := hpre (b, n) (List.mem_cons_self _ _)
    have ih' := ih (fun c hc => hpre c (List.mem_cons_of_mem _ hc))
    cases b with
    | false =>
      simpa [failing] using ih'
    | true =>
      have h1 : failing ((true, n) :: (pre ++ (false, m) :: post))
          = n :: failing (pre ++ (false, m) :: post) := by simp [failing]
      have h2 : failing ((true, n) :: (pre ++ (true, m) :: post))
          = n :: failing (pre ++ (true, m) :: post) := by simp [failing]
      simp only [List.cons_append, h1, h2, List.length_cons]
      refine ⟨?_, by omega⟩
      rw [List.erase_cons_tail (by simpa using hn), ih'.1]

/-- Fixing the field Name of a driver removes exactly its message. -/
theorem driver_fix_Name (parseOk : MailParser) (d : Driver) (x : String)
    (h : d.nameInvalid = true) (h' : Driver.nameInvalid { d with Name := x } = false) :
    oneFewer "driver name is invalid" (messagesOf (d.Validate parseOk))
      (messagesOf (Driver.Validate parseOk { d with Name := x })) := by
  rw [driver_messagesOf_Validate, driver_messagesOf_Validate]
  have e : Driver.checks parseOk { d with Name := x }
      = []
        ++ (false, "driver name is invalid")
          :: [(d.lastNameInvalid, "driver last name is invalid"),
         (d.emailInvalid parseOk, "driver email is invalid"),
         (d.phoneInvalid, "driver phone is invalid"),
         (d.licenseInvalid, "driver license is invalid"),
         (d.licenseTypeInvalid, "driver license type is invalid")] := by
    rw [← h']
    rfl
  have e0 : Driver.checks parseOk d
      = []
        ++ (true, "driver name is invalid")
          :: [(d.lastNameInvalid, "driver last name is invalid"),
         (d.emailInvalid parseOk, "driver email is invalid"),
         (d.phoneInvalid, "driver phone is invalid"),
         (d.licenseInvalid, "driver license is invalid"),
         (d.licenseTypeInvalid, "driver license type is invalid")] := by
    rw [← h]
    rfl
  rw [e, e0]
  exact failing_fix _ _ _ (by simp)

/-- Fixing the field LastName of a driver removes exactly its message. -/
theorem driver_fix_LastName (parseOk : MailParser) (d : Driver) (x : String)
    (h : d.lastNameInvalid = true) (h' : Driver.lastNameInvalid { d with LastName := x } = false) :
    oneFewer "driver last name is invalid" (messagesOf (d.Validate parseOk))
      (messagesOf (Driver.Validate parseOk { d with LastName := x })) := by
  rw [driver_messagesOf_Validate, driver_messagesOf_Validate]
  have e : Driver.checks parseOk { d with LastName := x }
      = [(d.nameInvalid, "driver name is invalid")]
        ++ (false, "driver last name is invalid")
          :: [(d.emailInvalid parseOk, "driver email is invalid"),
         (d.phoneInvalid, "driver phone is invalid"),
         (d.licenseInvalid, "driver license is invalid"),
         (d.licenseTypeInvalid, "driver license type is invalid")] := by
    rw [← h']
    rfl
  have e0 : Driver.checks parseOk d
      = [(d.nameInvalid, "driver name is invalid")]
        ++ (true, "driver last name is invalid")
          :: [(d.emailInvalid parseOk, "driver email is invalid"),
         (d.phoneInvalid, "driver phone is invalid"),
         (d.licenseInvalid, "driver license is invalid"),
         (d.licenseTypeInvalid, "driver license type is invalid")] := by
    rw [← h]
    rfl
  rw [e, e0]
  exact failing_fix _ _ _ (by simp)

/-- Fixing the field Email of a driver removes exactly its message. -/
theorem driver_fix_Email (parseOk : MailParser) (d : Driver) (x : String)
    (h : d.emailInvalid parseOk = true)
    (h' : Driver.emailInvalid parseOk { d with Email := x } = false) :
    oneFewer "driver email is invalid" (messagesOf (d.Validate parseOk))
      (messagesOf (Driver.Validate parseOk { d with Email := x })) := by
  rw [driver_messagesOf_Validate, driver_messagesOf_Validate]
  have e : Driver.checks parseOk { d with Email := x }
      = [(d.nameInvalid, "driver name is invalid"),
         (d.lastNameInvalid, "driver last name is invalid")]
        ++ (false, "driver email is invalid")
          :: [(d.phoneInvalid, "driver phone is invalid"),
         (d.licenseInvalid, "driver license is invalid"),
         (d.licenseTypeInvalid, "driver license type is invalid")] := by
    rw [← h']
    rfl
  have e0 : Driver.checks parseOk d
      = [(d.nameInvalid, "driver name is invalid"),
         (d.lastNameInvalid, "driver last name is invalid")]
        ++ (true, "driver email is invalid")
          :: [(d.phoneInvalid, "driver phone is invalid"),
         (d.licenseInvalid, "driver license is invalid"),
         (d.licenseTypeInvalid, "driver license type is invalid")] := by
    rw [← h]
    rfl
  rw [e, e0]
  exact failing_fix _ _ _ (by simp)

/-- Fixing the field Phone of a driver removes exactly its message. -/
theorem driver_fix_Phone (parseOk : MailParser) (d : Driver) (x : String)
    (h : d.phoneInvalid = true) (h' : Driver.phoneInvalid { d with Phone := x } = false) :
    oneFewer "driver phone is invalid" (messagesOf (d.Validate parseOk))
      (messagesOf (Driver.Validate parseOk { d with Phone := x })) := by
  rw [driver_messagesOf_Validate, driver_messagesOf_Validate]
  have e : Driver.checks parseOk { d with Phone := x }
      = [(d.nameInvalid, "driver name is invalid"),
         (d.lastNameInvalid, "driver last name is invalid"),
         (d.emailInvalid parseOk, "driver email is invalid")]
        ++ (false, "driver phone is invalid")
          :: [(d.licenseInvalid, "driver license is invalid"),
         (d.licenseTypeInvalid, "driver license type is invalid")] := by
    rw [← h']
    rfl
  have e0 : Driver.checks parseOk d
      = [(d.nameInvalid, "driver name is invalid"),
         (d.lastNameInvalid, "driver last name is invalid"),
         (d.emailInvalid parseOk, "driver email is invalid")]
        ++ (true, "driver phone is invalid")
          :: [(d.licenseInvalid, "driver license is invalid"),
         (d.licenseTypeInvalid, "driver license type is invalid")] := by
    rw [← h]
    rfl
  rw [e, e0]
  exact failing_fix _ _ _ (by simp)

/-- Fixing the field License of a driver removes exactly its message. -/
theorem driver_fix_License (parseOk : MailParser) (d : Driver) (x : String)
    (h : d.licenseInvalid = true) (h' : Driver.licenseInvalid { d with License := x } = false) :
    oneFewer "driver license is invalid" (messagesOf (d.Validate parseOk))
      (messagesOf (Driver.Validate parseOk { d with License := x })) := by
  rw [driver_messagesOf_Validate, driver_messagesOf_Validate]
  have e : Driver.checks parseOk { d with License := x }
      = [(d.nameInvalid, "driver name is invalid"),
         (d.lastNameInvalid, "driver last name is invalid"),
         (d.emailInvalid parseOk, "driver email is invalid"),
         (d.phoneInvalid, "driver phone is invalid")]
        ++ (false, "driver license is invalid")
          :: [(d.licenseTypeInvalid, "driver license type is invalid")] := by
    rw [← h']
    rfl
  have e0 : Driver.checks parseOk d
      = [(d.nameInvalid, "driver name is invalid"),
         (d.lastNameInvalid, "driver last name is invalid"),
         (d.emailInvalid parseOk, "driver email is invalid"),
         (d.phoneInvalid, "driver phone is invalid")]
        ++ (true, "driver license is invalid")
          :: [(d.licenseTypeInvalid, "driver license type is invalid")] := by
    rw [← h]
    rfl
  rw [e, e0]
  exact failing_fix _ _ _ (by simp)

/-- Fixing the field LicenseType of a driver removes exactly its message. -/
theorem driver_fix_LicenseType (parseOk : MailParser) (d : Driver) (x : String)
    (h : d.licenseTypeInvalid = true)
    (h' : Driver.licenseTypeInvalid { d with LicenseType := x } = false) :
    oneFewer "driver license type is invalid" (messagesOf (d.Validate parseOk))
      (messagesOf (Driver.Validate parseOk { d with LicenseType := x })) := by
  rw [driver_messagesOf_Validate, driver_messagesOf_Validate]
  have e : Driver.checks parseOk { d with LicenseType := x }
      = [(d.nameInvalid, "driver name is invalid"),
         (d.lastNameInvalid, "driver last name is invalid"),
         (d.emailInvalid parseOk, "driver email is invalid"),
         (d.phoneInvalid, "driver phone is invalid"),
         (d.licenseInvalid, "driver license is invalid")]
        ++ (false, "driver license type is invalid")
          :: [] := by
    rw [← h']
    rfl
  have e0 : Driver.checks parseOk d
      = [(d.nameInvalid, "driver name is invalid"),
         (d.lastNameInvalid, "driver last name is invalid"),
         (d.emailInvalid parseOk, "driver email is invalid"),
         (d.phoneInvalid, "driver phone is invalid"),
         (d.licenseInvalid, "driver license is invalid")]
        ++ (true, "driver license type is invalid")
          :: [] := by
    rw [← h]
    rfl
  rw [e, e0]
  exact failing_fix _ _ _ (by simp)

/-- Fixing the field Brand of a vehicle removes exactly its message. -/
theorem vehicle_fix_Brand (v : Vehicle) (x : String)
    (h : v.brandInvalid = true) (h' : Vehicle.brandInvalid { v with Brand := x } = false) :
    oneFewer "vehicle brand is invalid" (messagesOf v.Validate)
      (messagesOf (Vehicle.Validate { v with Brand := x })) := by
  rw [vehicle_messagesOf_Validate, vehicle_messagesOf_Validate]
  have e : Vehicle.checks { v with Brand := x }
      = []
        ++ (false, "vehicle brand is invalid")
          :: [(v.vehicleModelInvalid, "vehicle model is invalid"),
         (v.yearInvalid, "vehicle year is invalid"),
         (v.plateInvalid, "vehicle plate is invalid")] := by
    rw [← h']
    rfl
  have e0 : Vehicle.checks v
      = []
        ++ (true, "vehicle brand is invalid")
          :: [(v.vehicleModelInvalid, "vehicle model is invalid"),
         (v.yearInvalid, "vehicle year is invalid"),
         (v.plateInvalid, "vehicle plate is invalid")] := by
    rw [← h]
    rfl
  rw [e, e0]
  exact failing_fix _ _ _ (by simp)

/-- Fixing the field VehicleModel of a vehicle removes exactly its message. -/
theorem vehicle_fix_VehicleModel (v : Vehicle) (x : String)
    (h : v.vehicleModelInvalid = true)
    (h' : Vehicle.vehicleModelInvalid { v with VehicleModel := x } = false) :
    oneFewer "vehicle model is invalid" (messagesOf v.Validate)
      (messagesOf (Vehicle.Validate { v with VehicleModel := x })) := by
  rw [vehicle_messagesOf_Validate, vehicle_messagesOf_Validate]
  have e : Vehicle.checks { v with VehicleModel := x }
      = [(v.brandInvalid, "vehicle brand is invalid")]
        ++ (false, "vehicle model is invalid")
          :: [(v.yearInvalid, "vehicle year is invalid"),
         (v.plateInvalid, "vehicle plate is invalid")] := by
    rw [← h']
    rfl
  have e0 : Vehicle.checks v
      = [(v.brandInvalid, "vehicle brand is invalid")]
        ++ (true, "vehicle model is invalid")
          :: [(v.yearInvalid, "vehicle year is invalid"),
         (v.plateInvalid, "vehicle plate is invalid")] := by
    rw [← h]
    rfl
  rw [e, e0]
  exact failing_fix _ _ _ (by simp)

/-- Fixing the field Year of a vehicle removes exactly its message. -/
theorem vehicle_fix_Year (v : Vehicle) (y : Int)
    (h : v.yearInvalid = true) (h' : Vehicle.yearInvalid { v with Year := y } = false) :
    oneFewer "vehicle year is invalid" (messagesOf v.Validate)
      (messagesOf (Vehicle.Validate { v with Year := y })) := by
  rw [vehicle_messagesOf_Validate, vehicle_messagesOf_Validate]
  have e : Vehicle.checks { v with Year := y }
      = [(v.brandInvalid, "vehicle brand is invalid"),
         (v.vehicleModelInvalid, "vehicle model is invalid")]
        ++ (false, "vehicle year is invalid")
          :: [(v.plateInvalid, "vehicle plate is invalid")] := by
    rw [← h']
    rfl
  have e0 : Vehicle.checks v
      = [(v.brandInvalid, "vehicle brand is invalid"),
         (v.vehicleModelInvalid, "vehicle model is invalid")]
        ++ (true, "vehicle year is invalid")
          :: [(v.plateInvalid, "vehicle plate is invalid")] := by
    rw [← h]
    rfl
  rw [e, e0]
  exact failing_fix _ _ _ (by simp)

/-- Fixing the field Plate of a vehicle removes exactly its message. -/
theorem vehicle_fix_Plate (v : Vehicle) (x : String)
    (h : v.plateInvalid = true) (h' : Vehicle.plateInvalid { v with Plate := x } = false) :
    oneFewer "vehicle plate is invalid" (messagesOf v.Validate)
      (messagesOf (Vehicle.Validate { v with Plate := x })) := by
  rw [vehicle_messagesOf_Validate, vehicle_messagesOf_Validate]
  have e : Vehicle.checks { v with Plate := x }
      = [(v.brandInvalid, "vehicle brand is invalid"),
         (v.vehicleModelInvalid, "vehicle model is invalid"),
         (v.yearInvalid, "vehicle year is invalid")]
        ++ (false, "vehicle plate is invalid")
          :: [] := by
    rw [← h']
    rfl
  have e0 : Vehicle.checks v
      = [(v.brandInvalid, "vehicle brand is invalid"),
         (v.vehicleModelInvalid, "vehicle model is invalid"),
         (v.yearInvalid, "vehicle year is invalid")]
        ++ (true, "vehicle plate is invalid")
          :: [] := by
    rw [← h]
    rfl
  rw [e, e0]
  exact failing_fix _ _ _ (by simp)

/-- C25: fixing one field removes exactly one violation. For every driver (resp.
vehicle) record, replacing the value of any one invalid field by a value that
satisfies that field's check, all other fields unchanged, yields a record whose
Validate result has exactly one message fewer: the original list with that
field's message removed and the remaining messages in the same order. This
holds for records with at least two violations and also when the fixed field
was the only violation. -/
theorem C25_fixing_one_field (parseOk : MailParser) (d : Driver) (v : Vehicle) (x : String)
    (y : Int) :
    (d.nameInvalid = true → Driver.nameInvalid { d with Name := x } = false →
        oneFewer "driver name is invalid" (messagesOf (d.Validate parseOk))
          (messagesOf (Driver.Validate parseOk { d with Name := x })))
      ∧ (d.lastNameInvalid = true → Driver.lastNameInvalid { d with LastName := x } = false →
        oneFewer "driver last name is invalid" (messagesOf (d.Validate parseOk))
          (messagesOf (Driver.Validate parseOk { d with LastName := x })))
      ∧ (d.emailInvalid parseOk = true → Driver.emailInvalid parseOk { d with Email := x } = false →
        oneFewer "driver email is invalid" (messagesOf (d.Validate parseOk))
          (messagesOf (Driver.Validate parseOk { d with Email := x })))
      ∧ (d.phoneInvalid = true → Driver.phoneInvalid { d with Phone := x } = false →
        oneFewer "driver phone is invalid" (messagesOf (d.Validate parseOk))
          (messagesOf (Driver.Validate parseOk { d with Phone := x })))
      ∧ (d.licenseInvalid = true → Driver.licenseInvalid { d with License := x } = false →
        oneFewer "driver license is invalid" (messagesOf (d.Validate parseOk))
          (messagesOf (Driver.Validate parseOk { d with License := x })))
      ∧ (d.licenseTypeInvalid = true →
          Driver.licenseTypeInvalid { d with LicenseType := x } = false →
        oneFewer "driver license type is invalid" (messagesOf (d.Validate parseOk))
          (messagesOf (Driver.Validate parseOk { d with LicenseType := x })))
      ∧ (v.brandInvalid = true → Vehicle.brandInvalid { v with Brand := x } = false →
        oneFewer "vehicle brand is invalid" (messagesOf v.Validate)
          (messagesOf (Vehicle.Validate { v with Brand := x })))
      ∧ (v.vehicleModelInvalid = true →
          Vehicle.vehicleModelInvalid { v with VehicleModel := x } = false →
        oneFewer "vehicle model is invalid" (messagesOf v.Validate)
          (messagesOf (Vehicle.Validate { v with VehicleModel := x })))
      ∧ (v.yearInvalid = true → Vehicle.yearInvalid { v with Year := y } = false →
        oneFewer "vehicle year is invalid" (messagesOf v.Validate)
          (messagesOf (Vehicle.Validate { v with Year := y })))
      ∧ (v.plateInvalid = true → Vehicle.plateInvalid { v with Plate := x } = false →
        oneFewer "vehicle plate is invalid" (messagesOf v.Validate)
          (messagesOf (Vehicle.Validate { v with Plate := x }))) :=
  ⟨driver_fix_Name parseOk d x,
    driver_fix_LastName parseOk d x,
    driver_fix_Email parseOk d x,
    driver_fix_Phone parseOk d x,
    driver_fix_License parseOk d x,
    driver_fix_LicenseType parseOk d x,
    vehicle_fix_Brand v x,
    vehicle_fix_VehicleModel v x,
    vehicle_fix_Year v y,
    vehicle_fix_Plate v x⟩

/-- Witness of C25: the all-invalid driver of the tests with its name fixed
keeps the five other messages in order. -/
theorem C25_fixing_one_field_witness :
    messagesOf (Driver.Validate simpleParseOk { allInvalidDriver with Name := "John" })
        = ["driver last name is invalid", "driver email is invalid", "driver phone is invalid",
            "driver license is invalid", "driver license type is invalid"]
      ∧ messagesOf (Vehicle.Validate { shortBrandVehicle with Brand := "Toyota" }) = [] := by
  have h := C25_fixing_one_field simpleParseOk allInvalidDriver shortBrandVehicle "John" 0
  have h2 := C25_fixing_one_field simpleParseOk allInvalidDriver shortBrandVehicle "Toyota" 0
  exact ⟨(h.1 (by decide) (by decide)).1.trans (by decide),
    (h2.2.2.2.2.2.2.1 (by decide) (by decide)).1.trans (by decide)⟩

/-- Two drivers with the same gorm.Model, the same six scalar fields and the same
vehicles are equal. -/
theorem driver_eq_of_fields (a b : Driver) (h0 : a.toModel = b.toModel)
    (h1 : a.Name = b.Name) (h2 : a.LastName = b.LastName) (h3 : a.Email = b.Email)
    (h4 : a.Phone = b.Phone) (h5 : a.License = b.License)
    (h6 : a.LicenseType = b.LicenseType) (h7 : a.Vehicles = b.Vehicles) : a = b := by
  cases a
  cases b
  simp only [Driver.mk.injEq]
  exact ⟨h0, h1, h2, h3, h4, h5, h6, h7⟩

/-- Two vehicles with the same gorm.Model and the same five fields are equal. -/
theorem vehicle_eq_of_fields (a b : Vehicle) (h0 : a.toModel = b.toModel)
    (h1 : a.Brand = b.Brand) (h2 : a.VehicleModel = b.VehicleModel) (h3 : a.Year = b.Year)
    (h4 : a.Plate = b.Plate) (h5 : a.DriverID = b.DriverID) : a = b := by
  cases a
  cases b
  simp only [Vehicle.mk.injEq]
  exact ⟨h0, h1, h2, h3, h4, h5⟩

/-- The merge of drivers keeps the gorm.Model and the vehicles of the fetched
record. -/
theorem driverMerge_frame (c p : Driver) :
    (driverUsecase.merge c p).toModel = c.toModel
      ∧ (driverUsecase.merge c p).Vehicles = c.Vehicles := by
  unfold driverUsecase.merge
  constructor <;>
    by_cases h1 : p.Name = "" <;> by_cases h2 : p.LastName = "" <;>
    by_cases h3 : p.Email = "" <;> by_cases h4 : p.Phone = "" <;>
    by_cases h5 : p.License = "" <;> by_cases h6 : p.LicenseType = "" <;>
    simp [h1, h2, h3, h4, h5, h6]

/-- The merge of vehicles keeps the gorm.Model and the DriverID of the fetched
record. -/
theorem vehicleMerge_frame (c p : Vehicle) :
    (vehicleUsecase.merge c p).toModel = c.toModel
      ∧ (vehicleUsecase.merge c p).DriverID = c.DriverID := by
  unfold vehicleUsecase.merge
  constructor <;>
    by_cases h1 : p.Brand = "" <;> by_cases h2 : p.Plate = "" <;>
    by_cases h3 : p.VehicleModel = "" <;> by_cases h4 : p.Year = 0 <;>
    simp [h1, h2, h3, h4]

/-- C28: Update leaves every non-merged part of the record as fetched. For driver
Update the record handed to the store's Update has the ID, the timestamps and
the Vehicles of the fetched record, and for vehicle Update it has the ID, the
timestamps and the DriverID of the fetched record, whatever the payload carries
in those fields. -/
theorem C28_update_frame (parseOk : MailParser) (dRepo : DriverRepository σ)
    (vRepo : VehicleRepository τ) (s : σ) (t : τ) (driverId vehicleId : Int)
    (c p : Driver) (cv pv : Vehicle) (hid : 0 < driverId) (hvid : 0 < vehicleId)
    (hget : (dRepo.GetById driverId false s).1 = (some c, none))
    (hvget : (vRepo.GetById vehicleId t).1 = (some cv, none))
    (hvalid : (driverUsecase.merge c p).Validate parseOk = none)
    (hvvalid : (vehicleUsecase.merge cv pv).Validate = none) :
    (∃ m : Driver,
        (driverUsecase.Update parseOk dRepo driverId (some p) s).calls
            = [.GetById driverId false, .Update m]
          ∧ m.ID = c.ID ∧ m.CreatedAt = c.CreatedAt ∧ m.UpdatedAt = c.UpdatedAt
          ∧ m.DeletedAt = c.DeletedAt ∧ m.Vehicles = c.Vehicles)
      ∧ (∃ m : Vehicle,
        (vehicleUsecase.Update vRepo vehicleId (some pv) t).calls
            = [.GetById vehicleId, .Update m]
          ∧ m.ID = cv.ID ∧ m.CreatedAt = cv.CreatedAt ∧ m.UpdatedAt = cv.UpdatedAt
          ∧ m.DeletedAt = cv.DeletedAt ∧ m.DriverID = cv.DriverID) := by
  obtain ⟨hm, hv⟩ := driverMerge_frame c p
  obtain ⟨hvm, hvd⟩ := vehicleMerge_frame cv pv
  refine ⟨⟨driverUsecase.merge c p,
      (driverUpdate_valid parseOk dRepo s driverId c p hid hget hvalid).1, ?_, ?_, ?_, ?_, hv⟩,
    ⟨vehicleUsecase.merge cv pv,
      (vehicleUpdate_valid vRepo t vehicleId cv pv hvid hvget hvvalid).1, ?_, ?_, ?_, ?_, hvd⟩⟩
  · exact congrArg Model.ID hm
  · exact congrArg Model.CreatedAt hm
  · exact congrArg Model.UpdatedAt hm
  · exact congrArg Model.DeletedAt hm
  · exact congrArg Model.ID hvm
  · exact congrArg Model.CreatedAt hvm
  · exact congrArg Model.UpdatedAt hvm
  · exact congrArg Model.DeletedAt hvm

/-- Witness of C28: payloads carrying another identifier, other vehicles and
another owner leave those parts of the stored records untouched. -/
theorem C28_update_frame_witness :
    (∃ m : Driver,
        (driverUsecase.Update simpleParseOk memDriverRepo 1 (some foreignDriverPatch)
            [storedDriver]).calls = [.GetById 1 false, .Update m]
          ∧ m.ID = 1 ∧ m.Vehicles = [])
      ∧ (∃ m : Vehicle,
        (vehicleUsecase.Update memVehicleRepo 1 (some foreignVehiclePatch)
            [storedVehicle]).calls = [.GetById 1, .Update m]
          ∧ m.ID = 1 ∧ m.DriverID = 1) := by
  obtain ⟨⟨m, hc, h1, -, -, -, h5⟩, ⟨n, hd, g1, -, -, -, g5⟩⟩ :=
    C28_update_frame simpleParseOk memDriverRepo memVehicleRepo [storedDriver] [storedVehicle]
      1 1 storedDriver foreignDriverPatch storedVehicle foreignVehiclePatch
      (by decide) (by decide) (by decide) (by decide) (by decide) (by decide)
  exact ⟨⟨m, hc, h1.trans (by decide), h5.trans (by decide)⟩,
    ⟨n, hd, g1.trans (by decide), g5.trans (by decide)⟩⟩

/-- C29: patches compose. Writing merge for the field-wise merge of driver
Update (resp. vehicle Update), for every record `c` and payloads `p1`, `p2`:
merging `p1` then `p2` into `c` is merging into `c` the merge of `p2` into `p1`;
a payload whose merged fields are all empty (zero for the year) changes nothing;
and merging the same payload twice is merging it once. The equalities hold for
the whole records. -/
theorem C29_patches_compose (c p p1 p2 : Driver) (cv pv pv1 pv2 : Vehicle) :
    driverUsecase.merge (driverUsecase.merge c p1) p2
        = driverUsecase.merge c (driverUsecase.merge p1 p2)
      ∧ (p.Name = "" → p.LastName = "" → p.Email = "" → p.Phone = "" → p.License = "" →
          p.LicenseType = "" → driverUsecase.merge c p = c)
      ∧ driverUsecase.merge c { } = c
      ∧ driverUsecase.merge (driverUsecase.merge c p) p = driverUsecase.merge c p
      ∧ vehicleUsecase.merge (vehicleUsecase.merge cv pv1) pv2
        = vehicleUsecase.merge cv (vehicleUsecase.merge pv1 pv2)
      ∧ (pv.Brand = "" → pv.VehicleModel = "" → pv.Plate = "" → pv.Year = 0 →
          vehicleUsecase.merge cv pv = cv)
      ∧ vehicleUsecase.merge cv { } = cv
      ∧ vehicleUsecase.merge (vehicleUsecase.merge cv pv) pv = vehicleUsecase.merge cv pv := by
  have hempty : ∀ q : Driver, q.Name = "" → q.LastName = "" → q.Email = "" → q.Phone = "" →
      q.License = "" → q.LicenseType = "" → driverUsecase.merge c q = c := by
    intro q h1 h2 h3 h4 h5 h6
    obtain ⟨f1, f2, f3, f4, f5, f6⟩ := driverMerge_fields c q
    obtain ⟨g1, g2⟩ := driverMerge_frame c q
    rw [h1, if_pos rfl] at f1
    rw [h2, if_pos rfl] at f2
    rw [h3, if_pos rfl] at f3
    rw [h4, if_pos rfl] at f4
    rw [h5, if_pos rfl] at f5
    rw [h6, if_pos rfl] at f6
    exact driver_eq_of_fields _ _ g1 f1 f2 f3 f4 f5 f6 g2
  have hvempty : ∀ q : Vehicle, q.Brand = "" → q.VehicleModel = "" → q.Plate = "" →
      q.Year = 0 → vehicleUsecase.merge cv q = cv := by
    intro q h1 h2 h3 h4
    obtain ⟨f1, f2, f3, f4⟩ := vehicleMerge_fields cv q
    obtain ⟨g1, g2⟩ := vehicleMerge_frame cv q
    rw [h1, if_pos rfl] at f1
    rw [h2, if_pos rfl] at f2
    rw [h3, if_pos rfl] at f3
    rw [h4, if_pos rfl] at f4
    exact vehicle_eq_of_fields _ _ g1 f1 f2 f4 f3 g2
  refine ⟨?_, hempty p, hempty { } rfl rfl rfl rfl rfl rfl, ?_, ?_, hvempty pv,
    hvempty { } rfl rfl rfl rfl, ?_⟩
  · obtain ⟨a1, a2, a3, a4, a5, a6⟩ := driverMerge_fields (driverUsecase.merge c p1) p2
    obtain ⟨b1, b2, b3, b4, b5, b6⟩ := driverMerge_fields c p1
    obtain ⟨c1, c2, c3, c4, c5, c6⟩ := driverMerge_fields c (driverUsecase.merge p1 p2)
    obtain ⟨d1, d2, d3, d4, d5, d6⟩ := driverMerge_fields p1 p2
    refine driver_eq_of_fields _ _ ?_ ?_ ?_ ?_ ?_ ?_ ?_ ?_
    · rw [(driverMerge_frame _ _).1, (driverMerge_frame _ _).1, (driverMerge_frame _ _).1]
    · rw [a1, b1, c1, d1]
      split_ifs <;> simp_all
    · rw [a2, b2, c2, d2]
      split_ifs <;> simp_all
    · rw [a3, b3, c3, d3]
      split_ifs <;> simp_all
    · rw [a4, b4, c4, d4]
      split_ifs <;> simp_all
    · rw [a5, b5, c5, d5]
      split_ifs <;> simp_all
    · rw [a6, b6, c6, d6]
      split_ifs <;> simp_all
    · rw [(driverMerge_frame _ _).2, (driverMerge_frame _ _).2, (driverMerge_frame _ _).2]
  · obtain ⟨a1, a2, a3, a4, a5, a6⟩ := driverMerge_fields (driverUsecase.merge c p) p
    obtain ⟨b1, b2, b3, b4, b5, b6⟩ := driverMerge_fields c p
    refine driver_eq_of_fields _ _ ?_ ?_ ?_ ?_ ?_ ?_ ?_ ?_
    · rw [(driverMerge_frame _ _).1]
    · rw [a1, b1]
      split_ifs <;> simp_all
    · rw [a2, b2]
      split_ifs <;> simp_all
    · rw [a3, b3]
      split_ifs <;> simp_all
    · rw [a4, b4]
      split_ifs <;> simp_all
    · rw [a5, b5]
      split_ifs <;> simp_all
    · rw [a6, b6]
      split_ifs <;> simp_all
    · rw [(driverMerge_frame _ _).2]
  · obtain ⟨a1, a2, a3, a4⟩ := vehicleMerge_fields (vehicleUsecase.merge cv pv1) pv2
    obtain ⟨b1, b2, b3, b4⟩ := vehicleMerge_fields cv pv1
    obtain ⟨c1, c2, c3, c4⟩ := vehicleMerge_fields cv (vehicleUsecase.merge pv1 pv2)
    obtain ⟨d1, d2, d3, d4⟩ := vehicleMerge_fields pv1 pv2
    refine vehicle_eq_of_fields _ _ ?_ ?_ ?_ ?_ ?_ ?_
    · rw [(vehicleMerge_frame _ _).1, (vehicleMerge_frame _ _).1, (vehicleMerge_frame _ _).1]
    · rw [a1, b1, c1, d1]
      split_ifs <;> simp_all
    · rw [a2, b2, c2, d2]
      split_ifs <;> simp_all
    · rw [a4, b4, c4, d4]
      split_ifs <;> simp_all
    · rw [a3, b3, c3, d3]
      split_ifs <;> simp_all
    · rw [(vehicleMerge_frame _ _).2, (vehicleMerge_frame _ _).2, (vehicleMerge_frame _ _).2]
  · obtain ⟨a1, a2, a3, a4⟩ := vehicleMerge_fields (vehicleUsecase.merge cv pv) pv
    obtain ⟨b1, b2, b3, b4⟩ := vehicleMerge_fields cv pv
    refine vehicle_eq_of_fields _ _ ?_ ?_ ?_ ?_ ?_ ?_
    · rw [(vehicleMerge_frame _ _).1]
    · rw [a1, b1]
      split_ifs <;> simp_all
    · rw [a2, b2]
      split_ifs <;> simp_all
    · rw [a4, b4]
      split_ifs <;> simp_all
    · rw [a3, b3]
      split_ifs <;> simp_all
    · rw [(vehicleMerge_frame _ _).2]

/-- Witness of C29: a payload with empty merged fields but another identifier
leaves the stored driver as it is. -/
theorem C29_patches_compose_witness :
    driverUsecase.merge storedDriver { ID := 7 } = storedDriver
      ∧ vehicleUsecase.merge storedVehicle { ID := 7, DriverID := 9 } = storedVehicle := by
  have h := C29_patches_compose storedDriver { ID := 7 } { } { } storedVehicle
    { ID := 7, DriverID := 9 } { } { }
  exact ⟨h.2.1 rfl rfl rfl rfl rfl rfl, h.2.2.2.2.2.1 rfl rfl rfl rfl⟩

/-- C30: the HTTP status for a driver that is not found differs between
handlers. When the use case returns ErrDriverNotFound, DriverHandler.Update
responds with status 404, whereas DriverHandler.AddVehicle responds with status
500: it maps an ErrorInvalidField to 400 and every other error, the not-found
sentinel included, to 500. -/
theorem C30_not_found_status_differs (uc : DriverUsecase) (driverId : Int)
    (driverReq : driverRequest) (vehicleReq : vehicleRequest) (err : GoError)
    (hupdate : uc.Update driverId (some
        { Name := driverReq.Name, LastName := driverReq.LastName, Email := driverReq.Email,
          Phone := driverReq.Phone, License := driverReq.License,
          LicenseType := driverReq.LicenseType }) = .returned (some ErrDriverNotFound)) :
    DriverHandler.Update uc (some driverId) (.ok driverReq)
        = .returned { status := 404, error := some "driver not found" }
      ∧ (uc.AddVehicle driverId (some
            { Plate := vehicleReq.Plate, Brand := vehicleReq.Brand,
              VehicleModel := vehicleReq.VehicleModel, Year := vehicleReq.Year })
          = some ErrDriverNotFound →
          DriverHandler.AddVehicle uc (some driverId) (.ok vehicleReq)
            = { status := 500, error := some "driver not found" })
      ∧ (uc.AddVehicle driverId (some
            { Plate := vehicleReq.Plate, Brand := vehicleReq.Brand,
              VehicleModel := vehicleReq.VehicleModel, Year := vehicleReq.Year })
          = some err →
          (DriverHandler.AddVehicle uc (some driverId) (.ok vehicleReq)).status
            = if isErrorInvalidField err then 400 else 500) := by
  refine ⟨?_, ?_, ?_⟩
  · simp only [DriverHandler.Update, hupdate]
    rfl
  · intro h
    simp only [DriverHandler.AddVehicle, h]
    rfl
  · intro h
    simp only [DriverHandler.AddVehicle, h]
    cases err <;> rfl

/-- Witness of C30: both handlers over the use cases of package usecase and a
store that holds driver 1 only, asked for driver 2. -/
theorem C30_not_found_status_differs_witness :
    DriverHandler.Update (driverUsecaseOn simpleParseOk memDriverRepo [storedDriver]) (some 2)
        (.ok johnDoeRequest) = .returned { status := 404, error := some "driver not found" }
      ∧ DriverHandler.AddVehicle (driverUsecaseOn simpleParseOk memDriverRepo [storedDriver])
          (some 2) (.ok camryRequest) = { status := 500, error := some "driver not found" } := by
  have h := C30_not_found_status_differs
    (driverUsecaseOn simpleParseOk memDriverRepo [storedDriver]) 2 johnDoeRequest camryRequest
    ErrDriverNotFound (by decide)
  exact ⟨h.1, h.2.1 (by decide)⟩

theorem mem_run_opt (a : Regex) (s t : List Char) :
    t ∈ (Regex.opt a).run s ↔ t ∈ a.run s ∨ t = s := by
  simp [Regex.run]

theorem mem_run_alt (a b : Regex) (s t : List Char) :
    t ∈ (Regex.alt a b).run s ↔ t ∈ a.run s ∨ t ∈ b.run s := by
  simp [Regex.run]

theorem mem_run_seq (a b : Regex) (s t : List Char) :
    t ∈ (Regex.seq a b).run s ↔ ∃ u, u ∈ a.run s ∧ t ∈ b.run u := by
  simp [Regex.run, List.mem_flatMap]

theorem space_eq_cls : space = .cls isWhitespace := by
  unfold space
  congr 1
  funext c
  have h : ∀ (k : Char), decide (c = k) = decide (c.toNat = k.toNat) := by
    intro k
    by_cases h : c = k
    · subst h
      simp
    · have : c.toNat ≠ k.toNat := fun e => h (char_eq_of_toNat_eq e)
      simp [h, this]
  simp only [isWhitespace, h]
  rfl

/-- The sign of the phone prefix, as the pattern writes it. -/
theorem mem_run_sign (s t : List Char) :
    t ∈ (Regex.alt (lit '+') (.alt (lit '(') (lit '0'))).run s
      ↔ ∃ c, s = c :: t ∧ isPhoneSign c = true := by
  simp only [mem_run_alt, lit_eq_cls, mem_run_cls, isPhoneSign, Bool.or_eq_true,
    decide_eq_true_eq]
  constructor
  · rintro (⟨c, h, hc⟩ | ⟨c, h, hc⟩ | ⟨c, h, hc⟩)
    · exact ⟨c, h, Or.inl (Or.inl hc)⟩
    · exact ⟨c, h, Or.inl (Or.inr hc)⟩
    · exact ⟨c, h, Or.inr hc⟩
  · rintro ⟨c, h, (hc | hc) | hc⟩
    · exact Or.inl ⟨c, h, hc⟩
    · exact Or.inr (Or.inl ⟨c, h, hc⟩)
    · exact Or.inr (Or.inr ⟨c, h, hc⟩)

/-- The separator of the phone pattern, as the pattern writes it. -/
theorem mem_run_separator (s t : List Char) :
    t ∈ (Regex.alt space (.alt (lit ')') (lit '-'))).run s
      ↔ ∃ c, s = c :: t ∧ isPhoneSeparator c = true := by
  simp only [mem_run_alt, lit_eq_cls, space_eq_cls, mem_run_cls, isPhoneSeparator,
    Bool.or_eq_true, decide_eq_true_eq]
  constructor
  · rintro (⟨c, h, hc⟩ | ⟨c, h, hc⟩ | ⟨c, h, hc⟩)
    · exact ⟨c, h, Or.inl (Or.inl hc)⟩
    · exact ⟨c, h, Or.inl (Or.inr hc)⟩
    · exact ⟨c, h, Or.inr hc⟩
  · rintro ⟨c, h, (hc | hc) | hc⟩
    · exact Or.inl ⟨c, h, hc⟩
    · exact Or.inr (Or.inl ⟨c, h, hc⟩)
    · exact Or.inr (Or.inr ⟨c, h, hc⟩)

theorem isTenDigits_iff (s : List Char) :
    isTenDigits s = true ↔ s.length = 10 ∧ ∀ c ∈ s, isDigitChar c = true := by
  simp [isTenDigits]

/-- The ten digits of the phone pattern. -/
theorem nil_mem_run_tenDigits (s : List Char) :
    [] ∈ (Regex.rep digit 10 10).run s ↔ isTenDigits s = true := by
  rw [digit_eq_cls, mem_run_rep_cls, isTenDigits_iff]
  constructor
  · rintro ⟨pre, hs, h1, h2, hall⟩
    rw [List.append_nil] at hs
    subst hs
    exact ⟨by omega, hall⟩
  · rintro ⟨h1, hall⟩
    exact ⟨s, by simp, by omega, by omega, hall⟩

/-- The optional separator and the ten digits of the phone pattern. -/
theorem nil_mem_run_separatorThenNumber (s : List Char) :
    [] ∈ (Regex.seq (.opt (.alt space (.alt (lit ')') (lit '-')))) (.rep digit 10 10)).run s
      ↔ isSeparatorThenNumber s = true := by
  simp only [mem_run_seq, mem_run_opt, mem_run_separator, nil_mem_run_tenDigits]
  unfold isSeparatorThenNumber
  constructor
  · rintro ⟨u, (⟨c, hs, hc⟩ | hu), hten⟩
    · subst hs
      simp [hc, hten]
    · subst hu
      simp [hten]
  · intro h
    rw [Bool.or_eq_true] at h
    rcases h with h | h
    · exact ⟨s, Or.inr rfl, h⟩
    · cases s with
      | nil => simp at h
      | cons c r =>
        simp only [Bool.and_eq_true] at h
        exact ⟨r, Or.inl ⟨c, rfl, h.1⟩, h.2⟩

/-- One to three digits followed by a rest accepted by `q`. -/
theorem exists_mem_run_digits (q : List Char → Bool) (s : List Char) :
    (∃ t, t ∈ (Regex.rep digit 1 3).run s ∧ q t = true) ↔
      ([1, 2, 3].any fun n =>
        decide ((s.take n).length = n) && (s.take n).all isDigitChar && q (s.drop n)) = true := by
  simp only [digit_eq_cls, mem_run_rep_cls, List.any_eq_true, Bool.and_eq_true,
    decide_eq_true_eq, List.all_eq_true]
  constructor
  · rintro ⟨t, ⟨pre, hs, h1, h2, hall⟩, hq⟩
    refine ⟨pre.length, ?_, ?_⟩
    · have : pre.length = 1 ∨ pre.length = 2 ∨ pre.length = 3 := by omega
      rcases this with h | h | h <;> simp [h]
    · subst hs
      simpa [hq] using hall
  · rintro ⟨n, hn, ⟨hlen, hall⟩, hq⟩
    refine ⟨s.drop n, ⟨s.take n, (List.take_append_drop n s).symm, ?_, ?_, hall⟩, hq⟩
    · simp only [List.mem_cons, List.mem_singleton, List.not_mem_nil, or_false] at hn
      omega
    · simp only [List.mem_cons, List.mem_singleton, List.not_mem_nil, or_false] at hn
      omega

/-- The body of regexPhone matches a whole string exactly when the string is of
the phone form of the specification. -/
theorem regexPhone_body_fullMatch (s : List Char) :
    regexPhone.body.fullMatch s = phoneFormList s := by
  rw [Bool.eq_iff_iff, fullMatch_iff]
  show [] ∈ (Regex.seq (.opt (.seq (.opt (.alt (lit '+') (.alt (lit '(') (lit '0'))))
      (.rep digit 1 3)))
    (.seq (.opt (.alt space (.alt (lit ')') (lit '-')))) (.rep digit 10 10))).run s ↔ _
  rw [mem_run_seq]
  simp only [mem_run_opt, nil_mem_run_separatorThenNumber]
  unfold phoneFormList isDigitsThenNumber
  simp only [Bool.or_eq_true]
  rw [← exists_mem_run_digits isSeparatorThenNumber s]
  constructor
  · rintro ⟨t1, (h | h), hq⟩
    · rw [mem_run_seq] at h
      obtain ⟨u, hu, ht1⟩ := h
      rw [mem_run_opt, mem_run_sign] at hu
      rcases hu with ⟨c, hs, hc⟩ | hu
      · right
        subst hs
        simp only [hc, Bool.true_and]
        exact (exists_mem_run_digits isSeparatorThenNumber u).mp ⟨t1, ht1, hq⟩
      · subst hu
        exact Or.inl (Or.inr ⟨t1, ht1, hq⟩)
    · subst h
      exact Or.inl (Or.inl hq)
  · rintro ((h | ⟨t1, ht1, hq⟩) | h)
    · exact ⟨s, Or.inr rfl, h⟩
    · exact ⟨t1, Or.inl ((mem_run_seq _ _ _ _).mpr ⟨s, (mem_run_opt _ _ _).mpr (Or.inr rfl),
        ht1⟩), hq⟩
    · cases s with
      | nil => simp at h
      | cons c r =>
        simp only [Bool.and_eq_true] at h
        obtain ⟨t1, ht1, hq⟩ := (exists_mem_run_digits isSeparatorThenNumber r).mpr h.2
        exact ⟨t1, Or.inl ((mem_run_seq _ _ _ _).mpr ⟨r,
          (mem_run_opt _ _ _).mpr (Or.inl ((mem_run_sign _ _).mpr ⟨c, rfl, h.1⟩)), ht1⟩), hq⟩

/-- A string of the phone form ends with ten digits. -/
theorem phoneFormList_ends (s : List Char) (h : phoneFormList s = true) :
    ∃ pre ds, s = pre ++ ds ∧ isTenDigits ds = true := by
  have hsep : ∀ u : List Char, isSeparatorThenNumber u = true →
      ∃ pre ds, u = pre ++ ds ∧ isTenDigits ds = true := by
    intro u hu
    unfold isSeparatorThenNumber at hu
    rw [Bool.or_eq_true] at hu
    rcases hu with hu | hu
    · exact ⟨[], u, rfl, hu⟩
    · cases u with
      | nil => simp at hu
      | cons c r =>
        simp only [Bool.and_eq_true] at hu
        exact ⟨[c], r, rfl, hu.2⟩
  have hdig : ∀ u : List Char, isDigitsThenNumber u = true →
      ∃ pre ds, u = pre ++ ds ∧ isTenDigits ds = true := by
    intro u hu
    unfold isDigitsThenNumber at hu
    rw [List.any_eq_true] at hu
    obtain ⟨n, -, hn⟩ := hu
    simp only [Bool.and_eq_true] at hn
    obtain ⟨pre, ds, hd, hten⟩ := hsep _ hn.2
    refine ⟨u.take n ++ pre, ds, ?_, hten⟩
    rw [List.append_assoc, ← hd, List.take_append_drop]
  unfold phoneFormList at h
  simp only [Bool.or_eq_true] at h
  rcases h with (h | h) | h
  · exact hsep s h
  · exact hdig s h
  · cases s with
    | nil => simp at h
    | cons c r =>
      simp only [Bool.and_eq_true] at h
      obtain ⟨pre, ds, hd, hten⟩ := hdig r h.2
      exact ⟨c :: pre, ds, by rw [hd]; rfl, hten⟩

/-- Ten digits alone are of the phone form. -/
theorem phoneFormList_of_tenDigits (s : List Char) (h : isTenDigits s = true) :
    phoneFormList s = true := by
  simp [phoneFormList, isSeparatorThenNumber, h]

/-- MatchString on regexPhone: some suffix of the string is of the phone form. -/
theorem regexPhone_MatchString_iff (s : String) :
    regexPhone.MatchString s = true ↔ ∃ t, t <:+ s.data ∧ phoneFormList t = true := by
  show (s.data.tails.any regexPhone.body.fullMatch) = true ↔ _
  simp only [List.any_eq_true, List.mem_tails, regexPhone_body_fullMatch]

theorem endsWithTenDigits_iff (s : String) :
    endsWithTenDigits s = true ↔ ∃ pre ds, s.data = pre ++ ds ∧ isTenDigits ds = true := by
  unfold endsWithTenDigits
  simp only [Bool.and_eq_true, decide_eq_true_eq]
  constructor
  · rintro ⟨hlen, hall⟩
    refine ⟨s.data.take (s.data.length - 10), s.data.drop (s.data.length - 10),
      (List.take_append_drop _ _).symm, ?_⟩
    rw [isTenDigits, Bool.and_eq_true, decide_eq_true_eq]
    refine ⟨?_, hall⟩
    rw [List.length_drop]
    omega
  · rintro ⟨pre, ds, hs, hten⟩
    rw [isTenDigits, Bool.and_eq_true, decide_eq_true_eq] at hten
    have hl : s.data.length = pre.length + 10 := by
      rw [hs, List.length_append, hten.1]
    refine ⟨by omega, ?_⟩
    have hd : s.data.drop (s.data.length - 10) = ds := by
      rw [hl, Nat.add_sub_cancel, hs, List.drop_left]
    rw [hd]
    exact hten.2

/-- MatchString on regexPhone accepts exactly the strings ending with ten
digits. -/
theorem regexPhone_MatchString_ends (s : String) :
    regexPhone.MatchString s = endsWithTenDigits s := by
  rw [Bool.eq_iff_iff, regexPhone_MatchString_iff, endsWithTenDigits_iff]
  constructor
  · rintro ⟨t, ⟨pre, hpre⟩, ht⟩
    obtain ⟨pre2, ds, hd, hten⟩ := phoneFormList_ends t ht
    exact ⟨pre ++ pre2, ds, by rw [← hpre, hd, List.append_assoc], hten⟩
  · rintro ⟨pre, ds, hs, hten⟩
    exact ⟨ds, ⟨pre, hs.symm⟩, phoneFormList_of_tenDigits ds hten⟩

/-- C21, the code at the failing input: the phone abc1234567890 is not ten
digits optionally preceded by a prefix and a separator, yet Driver.Validate
accepts it; a phone of nine digits is rejected and a phone of ten digits
accepted, as the claim says. -/
theorem C21_phone_whole_string_not_checked :
    phoneForm lettersBeforePhoneDriver.Phone = false
      ∧ lettersBeforePhoneDriver.phoneInvalid = false
      ∧ "driver phone is invalid" ∉ messagesOf (lettersBeforePhoneDriver.Validate simpleParseOk)
      ∧ "driver phone is invalid" ∈ messagesOf (nineDigitPhoneDriver.Validate simpleParseOk)
      ∧ "driver phone is invalid" ∉ messagesOf (johnDoe.Validate simpleParseOk) := by
  decide

/-- C27: the phone check is anchored only at the end. For every driver,
Driver.Validate accepts the phone if and only if the phone ends with ten
consecutive ASCII digits; whatever precedes those ten digits does not affect
the outcome, so abc1234567890 is accepted. -/
theorem C27_phone_anchored_at_end_only (parseOk : MailParser) (d : Driver)
    (before digits : List Char) :
    ("driver phone is invalid" ∉ messagesOf (d.Validate parseOk)
        ↔ endsWithTenDigits d.Phone = true)
      ∧ (endsWithTenDigits d.Phone = true ↔
          ∃ pre ds, d.Phone.data = pre ++ ds ∧ ds.length = 10
            ∧ ∀ c ∈ ds, isDigitChar c = true)
      ∧ (digits.length = 10 → (∀ c ∈ digits, isDigitChar c = true) →
          "driver phone is invalid" ∉
            messagesOf (Driver.Validate parseOk { d with Phone := String.mk (before ++ digits) }))
      ∧ "driver phone is invalid" ∉ messagesOf (lettersBeforePhoneDriver.Validate parseOk) := by
  have h : ∀ e : Driver, "driver phone is invalid" ∉ messagesOf (e.Validate parseOk)
      ↔ endsWithTenDigits e.Phone = true := by
    intro e
    rw [phone_message_mem, Driver.phoneInvalid, regexPhone_MatchString_ends]
    cases endsWithTenDigits e.Phone <;> simp
  have h2 : ∀ e : Driver, endsWithTenDigits e.Phone = true ↔
      ∃ pre ds, e.Phone.data = pre ++ ds ∧ ds.length = 10
        ∧ ∀ c ∈ ds, isDigitChar c = true := by
    intro e
    rw [endsWithTenDigits_iff]
    simp only [isTenDigits_iff]
  refine ⟨h d, h2 d, ?_, ?_⟩
  · intro hlen hall
    rw [h, h2]
    exact ⟨before, digits, rfl, hlen, hall⟩
  · rw [h]
    decide

/-- Witness of C27: ten digits after any three letters. -/
theorem C27_phone_anchored_at_end_only_witness :
    "driver phone is invalid" ∉
      messagesOf (Driver.Validate simpleParseOk
        { johnDoe with Phone := String.mk ("xyz".data ++ "0123456789".data) }) :=
  (C27_phone_anchored_at_end_only simpleParseOk johnDoe "xyz".data "0123456789".data).2.2.1
    (by decide) (by decide)

end claims

end Gobrax
